import Mathlib

/-!
Shallow embedding of the configuration-schema synthesizer, the execution-plan
builder, and the queued run coordinator of the dagster repository
(src/python_modules/dagster/dagster/core/...), together with theorems settling
the frozen claims about them.

Python dictionaries are modelled as insertion-ordered association lists,
Python exceptions as an `Except PyError` result, and Python object identity on
definition objects (which do not override equality) as structural equality on
the model's definition records.
-/

namespace Dagster

/-- Python exception kinds that the modelled code can raise. -/
inductive PyError where
  /-- DagsterInvariantViolationError -/
  | invariantViolation (message : String)
  /-- DagsterInvalidDefinitionError -/
  | invalidDefinition (message : String)
  /-- DagsterExecutionStepNotFoundError -/
  | stepNotFoundError (message : String) (step_keys : List String)
  /-- check.failed -> CheckError -/
  | checkFailed (message : String)
  /-- Python AttributeError -/
  | attributeError (message : String)
  /-- Python KeyError -/
  | keyError (key : String)
  deriving DecidableEq, Repr

/-- A parsed configuration value (a Python value carried through config). -/
inductive ConfigValue where
  | intVal (n : Int)
  | strVal (s : String)
  | boolVal (b : Bool)
  | listVal (xs : List ConfigValue)
  | dictVal (entries : List (String × ConfigValue))

/-- Replace the value under key `k` if present (keeping its position, as a
Python dict assignment does), otherwise append the new entry. -/
def dictInsert {κ α : Type} [BEq κ] (l : List (κ × α)) (k : κ) (v : α) :
    List (κ × α) :=
  if (l.lookup k).isSome then
    l.map (fun p => if p.1 == k then (k, v) else p)
  else
    l ++ [(k, v)]

mutual
/-- Config schema tree: `dagster.config` types as used by
environment_configs.py (Shape, Selector, Array, scalar leaves). -/
inductive ConfigType where
  | shape (fields : List (String × Fld))
  | selector (fields : List (String × Fld))
  | array (inner : ConfigType)
  | scalar (given_name : String)

/-- A config `Field`: a schema type, an optional default value, and the
canonicalized required flag. -/
inductive Fld where
  | mk (config_type : ConfigType) (default_value : Option ConfigValue)
       (is_required : Bool)
end

def Fld.config_type : Fld → ConfigType
  | .mk t _ _ => t

def Fld.default_value : Fld → Option ConfigValue
  | .mk _ d _ => d

def Fld.is_required : Fld → Bool
  | .mk _ _ r => r

/-- The `fields` attribute of a Shape or Selector config type (empty for the
other variants, on which the source never reads `.fields`). -/
def ConfigType.fields : ConfigType → List (String × Fld)
  | .shape fs => fs
  | .selector fs => fs
  | _ => []

/-- Modelled from the spec (dagster/config/field_utils.py is not in src/):
`all_optional_type(t)` is true when `t` is a Shape all of whose fields are
individually optional, or a Selector whose single field is optional. -/
def all_optional_type : ConfigType → Bool
  | .shape fs => fs.all (fun p => !p.2.is_required)
  | .selector fs =>
    match fs with
    | [p] => !p.2.is_required
    | _ => false
  | _ => false

/-- Modelled from the spec (dagster/config/field.py is not in src/): the
`Field` constructor; a Field is required unless the caller says otherwise,
it carries a default, or its config type is transitively optional.
`default = none` models FIELD_NO_DEFAULT_PROVIDED. -/
def mkField (t : ConfigType) (default : Option ConfigValue)
    (is_required : Option Bool) : Fld :=
  let req :=
    match is_required with
    | some b => b
    | none => !(default.isSome || all_optional_type t)
  .mk t default req

/-- A configurable definition (resource, storage, executor, logger): we model
the `config_schema` / `config_field` surface used by environment_configs.py.
`config_field = none` models a definition with no declared config schema
(on which both `config_schema` and `has_config_field` are falsy). -/
structure ConfigurableDef where
  name : String
  config_field : Option Fld

def ConfigurableDef.has_config_field (d : ConfigurableDef) : Bool :=
  d.config_field.isSome

/-- environment_configs.py `def_config_field`: a Field wrapping
`Shape({"config": config_field})` when the definition has a config field,
otherwise a Shape with no fields. -/
def def_config_field (d : ConfigurableDef) (is_required : Option Bool) : Fld :=
  mkField
    (.shape (match d.config_field with
      | some f => [("config", f)]
      | none => []))
    none
    is_required

/-- A resource definition, as consumed by `define_resource_dictionary_cls`. -/
abbrev ResourceDefinition := ConfigurableDef

/-- The field-gathering loop of `define_resource_dictionary_cls`: one field
per resource whose `config_schema` is truthy; resources without a config
schema are skipped by the `if resource_def.config_schema:` guard. -/
def resourceFields :
    List (String × ResourceDefinition) → List (String × Fld)
  | [] => []
  | (n, rd) :: rest =>
    if rd.has_config_field then
      (n, def_config_field rd none) :: resourceFields rest
    else
      resourceFields rest

/-- environment_configs.py `define_resource_dictionary_cls` (lines 32-40). -/
def define_resource_dictionary_cls
    (resource_defs : List (String × ResourceDefinition)) : ConfigType :=
  .shape (resourceFields resource_defs)

/-- Python `set(storage_names) == defaults`: the two name collections are
equal as sets. -/
def eqAsSets (l1 l2 : List String) : Bool :=
  l1.all (fun x => l2.contains x) && l2.all (fun x => l1.contains x)

/-- environment_configs.py `define_storage_field` (lines 110-123). When the
declared storage names differ from the default set, the source examines only
`list(storage_names)[0]` — the first declared storage — and attaches the
default `{first_name: {}}` exactly when that first storage's config type is
transitively optional. -/
def define_storage_field (storage_selector : ConfigType)
    (storage_names : List String) (defaults : List String) : Fld :=
  if eqAsSets storage_names defaults then
    mkField storage_selector none (some false)
  else
    let default_storage : Option ConfigValue :=
      match storage_names with
      | [] => none
      | def_key :: _ =>
        match storage_selector.fields.lookup def_key with
        | some possible_default =>
          if all_optional_type possible_default.config_type then
            some (.dictVal [(def_key, .dictVal [])])
          else none
        | none => none
    mkField storage_selector default_storage none

/-- The storage default as the spec's words describe it: "pick the first
declared storage whose own config is transitively optional, and default to
`{that_name: {}}`; if none qualifies, emit no default". Written from the spec
for comparison with `define_storage_field`, which is written from the source. -/
def spec_storage_default (storage_selector : ConfigType)
    (storage_names : List String) : Option ConfigValue :=
  (storage_names.find? (fun n =>
    match storage_selector.fields.lookup n with
    | some f => all_optional_type f.config_type
    | none => false)).map (fun n => .dictVal [(n, .dictVal [])])

/-! ### Config type registry (environment_configs.py, construct_config_type_dictionary) -/

/-- The structural variant of a config type — models the Python class
returned by `type(config_type)` in `construct_config_type_dictionary`. -/
inductive CTypeVariant where
  | shapeV
  | selectorV
  | arrayV
  | scalarV
  | enumV
  deriving DecidableEq, Repr

/-- A config type as seen by the registry: its stable key, its optional
human-given name, and its structural variant. -/
structure CType where
  key : String
  given_name : Option String
  variant : CTypeVariant
  deriving DecidableEq, Repr

/-- The by-name seed: `{t.given_name: t for t in ALL_CONFIG_BUILTINS if t.given_name}`
(a dict comprehension, so a later builtin with the same name overwrites). -/
def seedByName (builtins : List CType) : List (String × CType) :=
  builtins.foldl (fun acc t =>
    match t.given_name with
    | some n => dictInsert acc n t
    | none => acc) []

/-- The by-key seed: `{t.key: t for t in ALL_CONFIG_BUILTINS}`. -/
def seedByKey (builtins : List CType) : List (String × CType) :=
  builtins.foldl (fun acc t => dictInsert acc t.key t) []

/-- The message raised by `construct_config_type_dictionary` on a name clash. -/
def nameClashMsg (name : String) : String :=
  "Type names must be unique. You have constructed two different " ++
  "instances of types with the same name \"" ++ name ++ "\"."

/-- The loop body of environment_configs.py `construct_config_type_dictionary`
(lines 372-385): for each gathered type, check the by-name index for a clash
of structural variants, record the name if new, and upsert the key index. -/
def configTypeLoop (by_name by_key : List (String × CType)) :
    List CType → Except PyError (List (String × CType) × List (String × CType))
  | [] => .ok (by_name, by_key)
  | t :: rest =>
    match t.given_name with
    | some name =>
      (match by_name.lookup name with
      | some existing =>
        if t.variant ≠ existing.variant then
          .error (.invalidDefinition (nameClashMsg name))
        else
          configTypeLoop by_name (dictInsert by_key t.key t) rest
      | none =>
        configTypeLoop (dictInsert by_name name t) (dictInsert by_key t.key t) rest)
    | none =>
      configTypeLoop by_name (dictInsert by_key t.key t) rest

/-- environment_configs.py `construct_config_type_dictionary` (lines 362-387),
with `ALL_CONFIG_BUILTINS` (defined in dagster/config/config_type.py, outside
src/) passed as a parameter and the gathered iterator
`list(_gather_all_config_types(...)) + list(_gather_all_schemas(...))`
passed as the already-materialized list `all_types`. -/
def construct_config_type_dictionary (builtins : List CType)
    (all_types : List CType) :
    Except PyError (List (String × CType) × List (String × CType)) :=
  configTypeLoop (seedByName builtins) (seedByKey builtins) all_types

/-! ### Dagster types and step model (plan/objects.py, plan/inputs.py) -/

/-- The kind of a Dagster (runtime) type; `nothing` marks control-only edges. -/
inductive DagsterTypeKind where
  | any
  | scalarKind
  | listKind
  | nullable
  | nothing
  | regular
  deriving DecidableEq, Repr

/-- A Dagster type: a named base type with a kind, or a list type. -/
inductive DagsterType where
  | base (name : String) (kind : DagsterTypeKind)
  | listOf (inner : DagsterType)
  deriving DecidableEq, Repr

def DagsterType.kind : DagsterType → DagsterTypeKind
  | .base _ k => k
  | .listOf _ => .listKind

/-- Modelled from the spec (dagster_type.py is not in src/): a list type
exposes its element type for fan-in; the source raises on other types, which
the modelled call sites never exercise. -/
def DagsterType.get_inner_type_for_fan_in : DagsterType → DagsterType
  | .listOf t => t
  | t => t

/-- `StepOutputHandle`: `{ step_key, output_name }`. -/
structure StepOutputHandle where
  step_key : String
  output_name : String
  deriving DecidableEq, Repr

/-- The payload of a `FromStepOutput` step-input source. -/
structure FromStepOutputData where
  step_output_handle : StepOutputHandle
  dagster_type : DagsterType
  check_for_missing : Bool
  deriving DecidableEq, Repr

/-- The provenance variants of a step input (plan/inputs.py, modelled from
the spec's data model; `FromMultipleSources` holds `FromStepOutput` legs). -/
inductive StepInputSource where
  | fromConfig (value : ConfigValue) (dagster_type : DagsterType)
      (input_name : String)
  | fromStepOutput (data : FromStepOutputData)
  | fromMultipleSources (sources : List FromStepOutputData)
  | fromDefaultValue (value : ConfigValue)

/-- Modelled from the spec (plan/inputs.py is not in src/): the upstream step
keys referenced by a source — the `FromStepOutput` legs' step keys. -/
def StepInputSource.dependency_keys : StepInputSource → List String
  | .fromStepOutput d => [d.step_output_handle.step_key]
  | .fromMultipleSources ds => ds.map (fun d => d.step_output_handle.step_key)
  | _ => []

/-- `StepInput`: `{ name, type, source }`. -/
structure StepInput where
  name : String
  dagster_type : DagsterType
  source : StepInputSource

/-- A node handle: the path of node names from the root.
`SolidHandle(name, parent)` appends `name` to the parent's path; two handles
are equal iff their paths are. -/
structure SolidHandle where
  path : List String
  deriving DecidableEq, Repr

def SolidHandle.child (parent : Option SolidHandle) (name : String) :
    SolidHandle :=
  ⟨(match parent with | some p => p.path | none => []) ++ [name]⟩

/-- `SolidHandle.to_string`: the path joined with dots. -/
def SolidHandle.toString (h : SolidHandle) : String :=
  String.intercalate "." h.path

/-- An execution step: its handle, its resolved step inputs, and its declared
output names (plan/objects.py ExecutionStep, modelled from the spec's data
model: asset-store handles are not needed by the claims). -/
structure ExecutionStep where
  solid_handle : SolidHandle
  step_inputs : List StepInput
  step_output_names : List String

/-- `step_key = node_handle.to_string()`. -/
def ExecutionStep.key (s : ExecutionStep) : String :=
  s.solid_handle.toString

/-! ### Pipeline definition model (definitions/dependency.py, graph.py,
solid.py — interfaces consumed by the two src/ modules, modelled from the
spec's data model) -/

/-- An input definition: a name, a Dagster type, and an optional default. -/
structure InputDefinition where
  name : String
  dagster_type : DagsterType
  default_value : Option ConfigValue

/-- An output definition: a name and a Dagster type. -/
structure OutputDefinition where
  name : String
  dagster_type : DagsterType

/-- An upstream `(solid_name, output_name)` reference within one graph
scope (the dependency structure's SolidOutputHandle). -/
structure SolidOutputRef where
  solid_name : String
  output_name : String
  deriving DecidableEq, Repr

/-- A recorded dependency for one input handle: exactly one upstream output
(singular) or an ordered fan-in list. -/
inductive DepEntry where
  | singular (dep : SolidOutputRef)
  | fanIn (deps : List SolidOutputRef)
  deriving DecidableEq, Repr

/-- The dependency structure of one graph scope, keyed by
`(solid_name, input_name)`; absence of a key means no dependency. -/
structure DependencyStructure where
  entries : List ((String × String) × DepEntry)
  deriving DecidableEq, Repr

def DependencyStructure.entryFor (ds : DependencyStructure)
    (solid_name input_name : String) : Option DepEntry :=
  ds.entries.lookup (solid_name, input_name)

def DependencyStructure.has_singular_dep (ds : DependencyStructure)
    (solid_name input_name : String) : Bool :=
  match ds.entryFor solid_name input_name with
  | some (.singular _) => true
  | _ => false

def DependencyStructure.has_multi_deps (ds : DependencyStructure)
    (solid_name input_name : String) : Bool :=
  match ds.entryFor solid_name input_name with
  | some (.fanIn _) => true
  | _ => false

/-- An input mapping of a graph: graph-level input `definition_name` is
remapped to `(maps_to_solid, maps_to_input)` of a child. -/
structure InputMapping where
  definition_name : String
  maps_to_solid : String
  maps_to_input : String
  deriving DecidableEq, Repr

/-- An output mapping of a graph: graph-level output `definition_name` is
produced by `(maps_from_solid, maps_from_output)` of a child. -/
structure OutputMapping where
  definition_name : String
  maps_from_solid : String
  maps_from_output : String
  deriving DecidableEq, Repr

mutual
/-- A node definition: a leaf solid or a graph of child solids. -/
inductive NodeDefinition where
  | solidDef (input_defs : List InputDefinition)
      (output_defs : List OutputDefinition)
  | graphDef (input_defs : List InputDefinition)
      (output_defs : List OutputDefinition)
      (solids : List SolidNode)
      (dependency_structure : DependencyStructure)
      (input_mappings : List InputMapping)
      (output_mappings : List OutputMapping)

/-- A solid instance: a name bound to a node definition. -/
inductive SolidNode where
  | mk (name : String) (definition : NodeDefinition)
end

def SolidNode.name : SolidNode → String
  | .mk n _ => n

def SolidNode.definition : SolidNode → NodeDefinition
  | .mk _ d => d

def NodeDefinition.input_defs : NodeDefinition → List InputDefinition
  | .solidDef ins _ => ins
  | .graphDef ins _ _ _ _ _ => ins

def NodeDefinition.output_defs : NodeDefinition → List OutputDefinition
  | .solidDef _ outs => outs
  | .graphDef _ outs _ _ _ _ => outs

/-- `definition.input_has_default(name)`. -/
def NodeDefinition.input_has_default (d : NodeDefinition) (name : String) :
    Bool :=
  match d.input_defs.find? (fun i => i.name == name) with
  | some i => i.default_value.isSome
  | none => false

/-- `definition.default_value_for_input(name)`. -/
def NodeDefinition.default_value_for_input (d : NodeDefinition)
    (name : String) : Option ConfigValue :=
  match d.input_defs.find? (fun i => i.name == name) with
  | some i => i.default_value
  | none => none

/-- `solid.container_maps_input(input_name)`: whether the enclosing graph
remaps one of its own inputs onto this solid's input. The enclosing graph's
input mappings are passed explicitly (the source reaches them through the
solid's back-reference to its container). -/
def container_maps_input (container_input_mappings : List InputMapping)
    (solid_name input_name : String) : Bool :=
  container_input_mappings.any (fun m =>
    m.maps_to_solid == solid_name && m.maps_to_input == input_name)

/-- `solid.container_mapped_input(input_name)`. -/
def container_mapped_input (container_input_mappings : List InputMapping)
    (solid_name input_name : String) : Option InputMapping :=
  container_input_mappings.find? (fun m =>
    m.maps_to_solid == solid_name && m.maps_to_input == input_name)

/-! ### Modes, environment config, and the storage/asset-store guard -/

/-- An intermediate storage definition: its name and persistence flag. -/
structure IntermediateStorageDef where
  name : String
  is_persistent : Bool
  deriving DecidableEq, Repr

/-- The in-memory intermediate storage sentinel
(dagster/core/storage/system_storage.py `mem_intermediate_storage`). -/
def mem_intermediate_storage : IntermediateStorageDef :=
  ⟨"in_memory", false⟩

/-- The in-memory asset store sentinel
(dagster/core/storage/asset_store.py `mem_asset_store`). -/
def mem_asset_store : ResourceDefinition :=
  ⟨"mem_asset_store", none⟩

/-- Python `==` on definition objects is object identity (they do not define
an equality operator); model definitions as identified by their name. -/
def resourceIs (a b : ResourceDefinition) : Bool :=
  a.name == b.name

/-- A mode definition: the surface consumed by the plan builder and the
schema synthesizer. -/
structure ModeDefinition where
  name : String
  resource_defs : List (String × ResourceDefinition)
  intermediate_storage_defs : List IntermediateStorageDef

/-- Modelled from the spec (mode.py is not in src/): look up a declared
intermediate storage by name. -/
def ModeDefinition.get_intermediate_storage_def (m : ModeDefinition)
    (storage_name : String) : Option IntermediateStorageDef :=
  m.intermediate_storage_defs.find? (fun d => d.name == storage_name)

/-- The per-solid slice of the parsed environment config
(`solids.<handle>` with its `inputs` section). -/
structure SolidConfig where
  inputs : List (String × ConfigValue)

/-- The parsed environment config surface used by the plan builder:
`solids` keyed by handle string, and the selected intermediate storage name
(absent when the user configured none — the in-memory sentinel applies). -/
structure EnvironmentConfig where
  solids : List (String × SolidConfig)
  selected_intermediate_storage : Option String

/-- Modelled from the spec (system_config/objects.py is not in src/):
`environment_config.intermediate_storage.intermediate_storage_name`, with the
in-memory sentinel default. -/
def EnvironmentConfig.intermediate_storage_name (c : EnvironmentConfig) :
    String :=
  c.selected_intermediate_storage.getD "in_memory"

/-- Modelled from the spec (system_config/objects.py is not in src/):
`environment_config.intermediate_storage_def_for_mode(mode)` returns the
mode's storage definition matching the configured name, or null. -/
def EnvironmentConfig.intermediate_storage_def_for_mode
    (c : EnvironmentConfig) (m : ModeDefinition) :
    Option IntermediateStorageDef :=
  m.intermediate_storage_defs.find? (fun d =>
    d.name == c.intermediate_storage_name)

/-- The message of plan.py lines 494-501 (the source's format string omits a
space, yielding "yourModeDefinition"; kept verbatim). -/
def assetStoreClashMsg (intermediate_storage_name : String) : String :=
  "You have specified an intermediate storage, \"" ++
  intermediate_storage_name ++ "\", and have also specified a default " ++
  "asset store. You must specify only one. To avoid specifying an " ++
  "intermediate storage, omit the intermediate_storage_defs argument to " ++
  "yourModeDefinition and omit \"intermediate_storage\" in your run " ++
  "config. To avoid specifying a default asset store, omit the " ++
  "\"asset_store\" key from the resource_defs argument to your " ++
  "ModeDefinition."

/-- plan.py lines 484-487: the configured intermediate storage is at its
default when no storage definition matches the configured name or the match
is the in-memory sentinel. -/
def intermediate_storage_is_default (mode_def : ModeDefinition)
    (environment_config : EnvironmentConfig) : Bool :=
  match environment_config.intermediate_storage_def_for_mode mode_def with
  | none => true
  | some d => d == mem_intermediate_storage

/-- plan.py `check_asset_store_intermediate_storage` (lines 478-502): raise
an invariant violation when both the configured intermediate storage and the
mode's `asset_store` resource are away from their in-memory defaults. The
`mode_def.resource_defs["asset_store"]` subscript raises KeyError when the
mode lacks the resource (ModeDefinition always installs it by default). -/
def check_asset_store_intermediate_storage (mode_def : ModeDefinition)
    (environment_config : EnvironmentConfig) : Except PyError Unit :=
  match mode_def.resource_defs.lookup "asset_store" with
  | none => .error (.keyError "asset_store")
  | some asset_store =>
    let asset_store_is_default := resourceIs asset_store mem_asset_store
    if !intermediate_storage_is_default mode_def environment_config &&
        !asset_store_is_default then
      .error (.invariantViolation (assetStoreClashMsg
        (match environment_config.intermediate_storage_def_for_mode mode_def
            with
         | some d => d.name
         | none => "")))
    else
      .ok ()

/-! ### Queued run coordinator (run_coordinator/queued_run_coordinator.py) -/

/-- Pipeline run statuses relevant to the coordinator. -/
inductive PipelineRunStatus where
  | notStarted
  | queued
  | started
  | success
  | failure
  deriving DecidableEq, Repr

structure PipelineRun where
  run_id : String
  pipeline_name : String
  status : PipelineRunStatus
  deriving DecidableEq, Repr

/-- An entry of the instance's event log, as the coordinator writes it. -/
inductive EventRecord where
  | engineEvent (run_id : String) (message : String)
  | pipelineEnqueued (run_id : String) (pipeline_name : String)
  deriving DecidableEq, Repr

/-- The coordinator-visible state of the Dagster instance: its run storage
and its event log. -/
structure InstanceState where
  runs : List PipelineRun
  event_log : List EventRecord
  deriving DecidableEq, Repr

def get_run_by_id (s : InstanceState) (run_id : String) :
    Option PipelineRun :=
  s.runs.find? (fun r => r.run_id == run_id)

/-- Modelled from the spec (instance plumbing is not in src/): reporting an
engine event appends it to the instance's event log. -/
def report_engine_event (message : String) (run : PipelineRun)
    (s : InstanceState) : InstanceState :=
  { s with event_log := s.event_log ++ [.engineEvent run.run_id message] }

/-- Modelled from the spec (instance plumbing is not in src/): marking a run
failed sets its stored status to failure. -/
def report_run_failed (run : PipelineRun) (s : InstanceState) :
    InstanceState :=
  { s with runs := s.runs.map (fun r =>
      if r.run_id == run.run_id then { r with status := .failure } else r) }

/-- The external run launcher: `terminate` may answer anything and touch the
instance state (its behaviour is outside this repository). -/
structure RunLauncher where
  terminate : String → InstanceState → Bool × InstanceState

/-- queued_run_coordinator.py `QueuedRunCoordinator.cancel_run`
(lines 94-107): missing run → false; QUEUED run → engine event, run marked
failed, true; any other status → defer to the launcher's terminate. -/
def cancel_run (launcher : RunLauncher) (s : InstanceState)
    (run_id : String) : Bool × InstanceState :=
  match get_run_by_id s run_id with
  | none => (false, s)
  | some run =>
    if run.status == .queued then
      let s1 := report_engine_event "Cancelling pipeline from the queue." run s
      let s2 := report_run_failed run s1
      (true, s2)
    else
      launcher.terminate run_id s

/-! ### Plan builder (execution/plan/plan.py) -/

/-- The pipeline definition surface consumed by the plan builder: its name,
its solids in topological order (the source's
`solids_in_topological_order`, computed outside src/), its root dependency
structure, and its modes. -/
structure PipelineDefinition where
  name : String
  solids_in_topological_order : List SolidNode
  dependency_structure : DependencyStructure
  mode_definitions : List ModeDefinition

/-- The mutable state of `_PlanBuilder`: the ordered step dictionary, the
logical-output map, and the duplicate-defense key set. `step_keys_to_execute`
is held by the source builder but only read at the end of `build`; it is
passed to `ExecutionPlan.build` directly here. -/
structure PlanBuilderState where
  pipeline : PipelineDefinition
  environment_config : EnvironmentConfig
  mode_definition : ModeDefinition
  steps : List (String × ExecutionStep)
  step_output_map : List ((SolidHandle × String) × StepOutputHandle)
  seen_keys : List String

/-- plan.py `_PlanBuilder.add_step` (lines 61-71). On a duplicate key the
source evaluates `[s.key for s in self._steps]`; iterating the OrderedDict
yields its string keys, so `.key` raises AttributeError before `check.failed`
can fire — unless the dict is empty, in which case the comprehension is `[]`
and `check.failed` reports an empty dump. -/
def PlanBuilderState.add_step (pb : PlanBuilderState) (step : ExecutionStep) :
    Except PyError PlanBuilderState :=
  if pb.seen_keys.contains step.key then
    match pb.steps with
    | [] => .error (.checkFailed
        ("Duplicated key " ++ step.key ++ ". Full list seen so far: []."))
    | _ :: _ => .error (.attributeError
        "'str' object has no attribute 'key'")
  else
    .ok { pb with
      seen_keys := pb.seen_keys ++ [step.key],
      steps := dictInsert pb.steps step.solid_handle.toString step }

/-- The key of `plan_builder.step_output_map` for a dependency reference:
the referenced sibling lives in the same scope, so its handle shares this
solid's parent path. Models SolidOutputHandle identity. -/
def siblingOutputKey (handle : SolidHandle) (ref : SolidOutputRef) :
    SolidHandle × String :=
  (⟨handle.path.dropLast ++ [ref.solid_name]⟩, ref.output_name)

/-- `plan_builder.get_output_handle` over a list of fan-in references;
a missing entry is the source's KeyError. -/
def lookupOutputHandles
    (step_output_map : List ((SolidHandle × String) × StepOutputHandle))
    (handle : SolidHandle) :
    List SolidOutputRef → Except PyError (List StepOutputHandle)
  | [] => .ok []
  | r :: rest =>
    match step_output_map.lookup (siblingOutputKey handle r) with
    | some soh =>
      (lookupOutputHandles step_output_map handle rest).map (fun hs => soh :: hs)
    | none => .error (.keyError (r.solid_name ++ ":" ++ r.output_name))

/-- The message of plan.py lines 276-284. -/
def unresolvedInputMsg (pipeline_name solid_name input_name : String) :
    String :=
  "In pipeline " ++ pipeline_name ++ " solid " ++ solid_name ++
  ", input " ++ input_name ++
  " must get a value either (a) from a dependency or (b) from the " ++
  "inputs section of its configuration."

/-- The tail of `get_step_input` (plan.py lines 261-284), reached both after
an unresolved container remap and when no earlier rule matched: input
default, then the Nothing-kind escape, then the terminal error. -/
def stepInputTail (pipeline_name : String) (solid : SolidNode)
    (input_name : String) (input_def : InputDefinition) :
    Except PyError (Option StepInput) :=
  match solid.definition.default_value_for_input input_name with
  | some d =>
    .ok (some ⟨input_name, input_def.dagster_type, .fromDefaultValue d⟩)
  | none =>
  if input_def.dagster_type.kind == .nothing then
    .ok none
  else
    .error (.invariantViolation
      (unresolvedInputMsg pipeline_name solid.name input_name))

/-- plan.py `get_step_input` (lines 199-284): resolve one input's source by
the first matching rule — environment config, singular dependency, fan-in
dependency, parent-graph remap (when the parent step input was resolved),
input default, Nothing-kind escape, terminal invariant violation. -/
def get_step_input (pb : PlanBuilderState) (solid : SolidNode)
    (input_name : String) (input_def : InputDefinition)
    (dependency_structure : DependencyStructure) (handle : SolidHandle)
    (container_input_mappings : List InputMapping)
    (parent_step_inputs : List StepInput) :
    Except PyError (Option StepInput) :=
  match (pb.environment_config.solids.lookup handle.toString).bind
      (fun sc => sc.inputs.lookup input_name) with
  | some value =>
    .ok (some ⟨input_name, input_def.dagster_type,
      .fromConfig value input_def.dagster_type input_name⟩)
  | none =>
    match dependency_structure.entryFor solid.name input_name with
    | some (.singular ref) =>
      (match pb.step_output_map.lookup (siblingOutputKey handle ref) with
      | some soh =>
        .ok (some ⟨input_name, input_def.dagster_type,
          .fromStepOutput ⟨soh, input_def.dagster_type, false⟩⟩)
      | none => .error (.keyError (ref.solid_name ++ ":" ++ ref.output_name)))
    | some (.fanIn refs) =>
      (lookupOutputHandles pb.step_output_map handle refs).map (fun sohs =>
        some ⟨input_name, input_def.dagster_type,
          .fromMultipleSources (sohs.map (fun soh =>
            ⟨soh, input_def.dagster_type.get_inner_type_for_fan_in, true⟩))⟩)
    | none =>
      match container_mapped_input container_input_mappings solid.name
          input_name with
      | some mapping =>
        -- `{si.name: si for si in parent_step_inputs}`: a later entry with
        -- the same name overwrites, hence the reversed search
        (match parent_step_inputs.reverse.find? (fun si =>
            si.name == mapping.definition_name) with
        | some parent_input =>
          .ok (some ⟨input_name, input_def.dagster_type, parent_input.source⟩)
        | none =>
          stepInputTail pb.pipeline.name solid input_name input_def)
      | none =>
        stepInputTail pb.pipeline.name solid input_name input_def

/-- Modelled from the spec (plan/compute.py is not in src/):
`create_compute_step` builds the execution step for a leaf solid — its key is
the handle string, it carries the resolved step inputs and the solid's
declared output names. -/
def create_compute_step (_pipeline_name : String)
    (_environment_config : EnvironmentConfig) (solid : SolidNode)
    (step_inputs : List StepInput) (handle : SolidHandle) : ExecutionStep :=
  ⟨handle, step_inputs, solid.definition.output_defs.map (fun o => o.name)⟩

mutual
/-- Modelled from the spec (graph.py/solid.py are not in src/):
`definition.resolve_output_to_origin(output_name, handle)` punches through
composition layers to the innermost leaf output producing a graph output,
returning the origin output name and the origin handle. -/
def NodeDefinition.resolveOutput (d : NodeDefinition) (output_name : String)
    (handle : SolidHandle) : Option (String × SolidHandle) :=
  match d with
  | .solidDef _ _ => some (output_name, handle)
  | .graphDef _ _ solids _ _ output_mappings =>
    match output_mappings.find? (fun m => m.definition_name == output_name)
        with
    | some m =>
      resolveOutputInSolids solids m.maps_from_solid m.maps_from_output handle
    | none => none
termination_by sizeOf d

def resolveOutputInSolids (solids : List SolidNode)
    (child_name child_output : String) (handle : SolidHandle) :
    Option (String × SolidHandle) :=
  match solids with
  | [] => none
  | .mk sname sdef :: rest =>
    if sname == child_name then
      sdef.resolveOutput child_output
        (SolidHandle.child (some handle) child_name)
    else
      resolveOutputInSolids rest child_name child_output handle
termination_by sizeOf solids
end

/-- The inputs loop of `_build_from_sorted_solids` (plan.py lines 134-154):
resolve each declared input, dropping the Nothing-kind nulls. -/
def collectStepInputs (pb : PlanBuilderState) (solid : SolidNode)
    (dependency_structure : DependencyStructure) (handle : SolidHandle)
    (container_input_mappings : List InputMapping)
    (parent_step_inputs : List StepInput) :
    List InputDefinition → Except PyError (List StepInput)
  | [] => .ok []
  | input_def :: rest =>
    match get_step_input pb solid input_def.name input_def
        dependency_structure handle container_input_mappings
        parent_step_inputs with
    | .error e => .error e
    | .ok step_input? =>
      match collectStepInputs pb solid dependency_structure handle
          container_input_mappings parent_step_inputs rest with
      | .error e => .error e
      | .ok rest_inputs =>
        match step_input? with
        | some si => .ok (si :: rest_inputs)
        | none => .ok rest_inputs

/-- The outputs loop of `_build_from_sorted_solids` (plan.py lines 182-196):
map each logical solid output to the physical step output of its origin. -/
def setOutputHandles (pb : PlanBuilderState) (handle : SolidHandle)
    (definition : NodeDefinition) :
    List OutputDefinition → Except PyError PlanBuilderState
  | [] => .ok pb
  | output_def :: rest =>
    match definition.resolveOutput output_def.name handle with
    | none => .error (.checkFailed
        ("unmapped output " ++ output_def.name))
    | some (resolved_name, resolved_handle) =>
      match pb.steps.lookup resolved_handle.toString with
      | none => .error (.keyError resolved_handle.toString)
      | some compute_step =>
        let new_map := dictInsert pb.step_output_map (handle, output_def.name)
          ⟨compute_step.key, resolved_name⟩
        setOutputHandles { pb with step_output_map := new_map }
          handle definition rest

mutual
/-- plan.py `_build_from_sorted_solids` (lines 128-196), specialized
recursion over the solids of one scope. -/
def buildSolids (pb : PlanBuilderState) (solids : List SolidNode)
    (dependency_structure : DependencyStructure)
    (parent_handle : Option SolidHandle)
    (container_input_mappings : List InputMapping)
    (parent_step_inputs : List StepInput) :
    Except PyError PlanBuilderState :=
  match solids with
  | [] => .ok pb
  | s :: rest =>
    match buildOneSolid pb s dependency_structure parent_handle
        container_input_mappings parent_step_inputs with
    | .error e => .error e
    | .ok pb2 =>
      buildSolids pb2 rest dependency_structure parent_handle
        container_input_mappings parent_step_inputs
termination_by sizeOf solids

/-- One iteration of the `for solid in solids` loop: inputs, then the
compute step (leaf) or the recursion (graph), then the output handles. -/
def buildOneSolid (pb : PlanBuilderState) (solid : SolidNode)
    (dependency_structure : DependencyStructure)
    (parent_handle : Option SolidHandle)
    (container_input_mappings : List InputMapping)
    (parent_step_inputs : List StepInput) :
    Except PyError PlanBuilderState :=
  match solid with
  | .mk name ndef =>
    match collectStepInputs pb (.mk name ndef) dependency_structure
        (SolidHandle.child parent_handle name) container_input_mappings
        parent_step_inputs ndef.input_defs with
    | .error e => .error e
    | .ok step_inputs =>
      match ndef with
      | .solidDef ins outs =>
        (match pb.add_step (create_compute_step pb.pipeline.name
            pb.environment_config (.mk name (.solidDef ins outs))
            step_inputs (SolidHandle.child parent_handle name)) with
        | .error e => .error e
        | .ok pb2 =>
          setOutputHandles pb2 (SolidHandle.child parent_handle name)
            (.solidDef ins outs) outs)
      | .graphDef ins outs gsolids gdeps gimaps gomaps =>
        (match buildSolids pb gsolids gdeps
            (some (SolidHandle.child parent_handle name)) gimaps
            step_inputs with
        | .error e => .error e
        | .ok pb2 =>
          setOutputHandles pb2 (SolidHandle.child parent_handle name)
            (.graphDef ins outs gsolids gdeps gimaps gomaps) outs)
termination_by sizeOf solid
end

/-- plan.py line 108-110: `self.step_keys_to_execute or [step.key ...]` —
Python treats both None and the empty list as falsy. -/
def effectiveStepKeys (requested : Option (List String))
    (full : List String) : List String :=
  match requested with
  | none => full
  | some l => if l.isEmpty then full else l

/-- plan.py lines 99-104: scan each step's inputs for upstream step keys
(the source accumulates a set; modelled as the joined key list). -/
def buildDeps (steps : List (String × ExecutionStep)) :
    List (String × List String) :=
  steps.map (fun p =>
    (p.2.key, (p.2.step_inputs.map (fun si => si.source.dependency_keys)).flatten))

/-- The immutable `ExecutionPlan` (plan.py lines 287-325); the redundant
`steps` field (`list(step_dict.values())`) is derived and omitted. -/
structure ExecutionPlan where
  pipeline : PipelineDefinition
  step_dict : List (String × ExecutionStep)
  deps : List (String × List String)
  artifacts_persisted : Bool
  step_keys_to_execute : List String
  environment_config : EnvironmentConfig

/-- The message of plan.py lines 304-309. -/
def stepNotFoundMsg (missing : List String) : String :=
  "Execution plan does not contain step" ++
  (if missing.length > 1 then "s" else "") ++ ": " ++
  String.intercalate ", " missing

/-- `ExecutionPlan.__new__` (plan.py lines 293-309): reject
`step_keys_to_execute` entries absent from the step dictionary. -/
def ExecutionPlan.mkChecked (pipeline : PipelineDefinition)
    (step_dict : List (String × ExecutionStep))
    (deps : List (String × List String)) (artifacts_persisted : Bool)
    (step_keys_to_execute : List String)
    (environment_config : EnvironmentConfig) :
    Except PyError ExecutionPlan :=
  let missing := step_keys_to_execute.filter (fun k =>
    (step_dict.lookup k).isNone)
  if missing.isEmpty then
    .ok ⟨pipeline, step_dict, deps, artifacts_persisted,
      step_keys_to_execute, environment_config⟩
  else
    .error (.stepNotFoundError (stepNotFoundMsg missing) missing)

/-- plan.py `ExecutionPlan.build_subset_plan` (lines 399-408). -/
def ExecutionPlan.build_subset_plan (p : ExecutionPlan)
    (step_keys_to_execute : List String) : Except PyError ExecutionPlan :=
  ExecutionPlan.mkChecked p.pipeline p.step_dict p.deps
    p.artifacts_persisted step_keys_to_execute p.environment_config

/-- plan.py `_PlanBuilder.storage_is_persistent` (lines 123-126); the
mode-side lookup (mode.py, not in src/) fails on an undeclared name. -/
def storage_is_persistent (mode_def : ModeDefinition)
    (environment_config : EnvironmentConfig) : Except PyError Bool :=
  match mode_def.get_intermediate_storage_def
      environment_config.intermediate_storage_name with
  | some d => .ok d.is_persistent
  | none => .error (.checkFailed
      ("Could not find storage " ++
        environment_config.intermediate_storage_name))

/-- Modelled from the spec (pipeline mode selection is not in src/):
`get_mode_definition(mode)` when a mode is named, else the default mode. -/
def chooseMode (pipeline : PipelineDefinition) (mode : Option String) :
    Except PyError ModeDefinition :=
  match mode with
  | some m =>
    (match pipeline.mode_definitions.find? (fun md => md.name == m) with
    | some md => .ok md
    | none => .error (.checkFailed ("mode " ++ m ++ " not found")))
  | none =>
    match pipeline.mode_definitions.head? with
    | some md => .ok md
    | none => .error (.checkFailed "pipeline has no modes")

/-- `ExecutionPlan.build` + `_PlanBuilder.build` (plan.py lines 90-121 and
455-475): traverse, build deps and the step dictionary, default the step-key
subset, run the storage guard, and construct the checked plan. -/
def ExecutionPlan.build (pipeline : PipelineDefinition)
    (environment_config : EnvironmentConfig) (mode : Option String)
    (step_keys_to_execute : Option (List String)) :
    Except PyError ExecutionPlan :=
  match chooseMode pipeline mode with
  | .error e => .error e
  | .ok mode_definition =>
    match buildSolids
        ⟨pipeline, environment_config, mode_definition, [], [], []⟩
        pipeline.solids_in_topological_order
        pipeline.dependency_structure none [] [] with
    | .error e => .error e
    | .ok pbF =>
      match check_asset_store_intermediate_storage mode_definition
          environment_config with
      | .error e => .error e
      | .ok _ =>
        match storage_is_persistent mode_definition environment_config with
        | .error e => .error e
        | .ok persistent =>
          ExecutionPlan.mkChecked pipeline
            (pbF.steps.map (fun p => (p.2.key, p.2)))
            (buildDeps pbF.steps) persistent
            (effectiveStepKeys step_keys_to_execute
              (pbF.steps.map (fun p => p.2.key)))
            environment_config

/-- Whether a result carries a DagsterInvalidDefinitionError (the spec's
"DefinitionError"). -/
def resultIsInvalidDefinition (r : Except PyError (Option StepInput)) :
    Bool :=
  match r with
  | .error (.invalidDefinition _) => true
  | _ => false

def c10_pipeline : PipelineDefinition :=
  ⟨"pipe", [.mk "A" (.solidDef [] [⟨"result", .base "Any" .any⟩])], ⟨[]⟩,
    [⟨"default", [("asset_store", mem_asset_store)],
      [mem_intermediate_storage]⟩]⟩

def c10_env : EnvironmentConfig := ⟨[], none⟩

/-- The plan built for the one-solid pipeline of the C10 witness. -/
def c10_plan : ExecutionPlan :=
  ⟨c10_pipeline, [("A", ⟨⟨["A"]⟩, [], ["result"]⟩)], [("A", [])], false,
    ["A"], c10_env⟩

/-- The first type in a list carrying the given name `n`. -/
def firstNamed (ts : List CType) (n : String) : Option CType :=
  ts.find? (fun t => t.given_name == some n)

/-- The last type in a list whose key is `k` (the one a last-writer-wins
dict ends up holding). -/
def lastKeyed (ts : List CType) (k : String) : Option CType :=
  ts.reverse.find? (fun t => t.key == k)

/-- The type a gathered name is checked against by the registry loop: the
by-name entry when present, else the first gathered type of that name. -/
def refAt (by_name : List (String × CType)) (ts : List CType) (n : String) :
    Option CType :=
  match by_name.lookup n with
  | some b => some b
  | none => firstNamed ts n

/-- A gathered type clashes when the reference bound to its name has a
different structural variant. -/
def clashAt (by_name : List (String × CType)) (ts : List CType)
    (t : CType) : Prop :=
  ∃ n, t.given_name = some n ∧
    ∃ r, refAt by_name ts n = some r ∧ r.variant ≠ t.variant

/-! ## Settling the claims -/

theorem resourceFields_keys (rds : List (String × ResourceDefinition)) :
    (resourceFields rds).map Prod.fst =
      (rds.filter (fun p => p.2.has_config_field)).map Prod.fst := by
  induction rds with
  | nil => rfl
  | cons p rest ih =>
    obtain ⟨n, rd⟩ := p
    cases hc : rd.has_config_field <;>
      simp [resourceFields, hc, List.filter_cons, ih]

theorem resourceFields_lookup_not_mem
    (rds : List (String × ResourceDefinition)) (n : String)
    (h : n ∉ rds.map Prod.fst) :
    (resourceFields rds).lookup n = none := by
  induction rds with
  | nil => rfl
  | cons p rest ih =>
    obtain ⟨n0, rd0⟩ := p
    simp only [List.map_cons, List.mem_cons, not_or] at h
    have hne : (n == n0) = false := beq_eq_false_iff_ne.mpr h.1
    cases hc : rd0.has_config_field <;>
      simp [resourceFields, hc, List.lookup, hne, ih h.2]

/-- C2 counterexample: a resource with no declared config schema contributes
no field at all — the synthesized resources shape for a mode declaring only
such a resource has an empty field set, so the claimed per-resource field
with an empty sub-shape is absent. -/
theorem C2_no_config_resource_has_no_field :
    (define_resource_dictionary_cls
      [("no_config_resource", ⟨"no_config_resource", none⟩)]).fields = [] :=
  rfl

/-- C2 (amended): the synthesized `resources` shape has one field per
resource that declares a config schema — named after the resource and
wrapping `Shape({config: ...})` — and a resource with no declared config
schema contributes no field. -/
theorem C2_resources_shape_fields
    (resource_defs : List (String × ResourceDefinition))
    (n : String) (rd : ResourceDefinition)
    (hnodup : (resource_defs.map Prod.fst).Nodup)
    (hmem : (n, rd) ∈ resource_defs) :
    (rd.config_field.isSome = true →
      (define_resource_dictionary_cls resource_defs).fields.lookup n =
        some (def_config_field rd none)) ∧
    (rd.config_field = none →
      (define_resource_dictionary_cls resource_defs).fields.lookup n =
        none) := by
  induction resource_defs with
  | nil => cases hmem
  | cons p rest ih =>
    obtain ⟨n0, rd0⟩ := p
    simp only [List.map_cons, List.nodup_cons] at hnodup
    rcases List.mem_cons.mp hmem with heq | hmem2
    · injection heq with h1 h2
      subst h1
      subst h2
      constructor
      · intro hsome
        have hc : rd.has_config_field = true := hsome
        simp [define_resource_dictionary_cls, ConfigType.fields,
          resourceFields, hc, List.lookup]
      · intro hnone
        have hc : rd.has_config_field = false := by
          simp [ConfigurableDef.has_config_field, hnone]
        simp only [define_resource_dictionary_cls, ConfigType.fields,
          resourceFields, hc, Bool.false_eq_true, if_false]
        exact resourceFields_lookup_not_mem rest n hnodup.1
    · have hnmem : n ∈ rest.map Prod.fst :=
        List.mem_map_of_mem Prod.fst hmem2
      have hne : (n == n0) = false := by
        refine beq_eq_false_iff_ne.mpr ?_
        rintro rfl
        exact hnodup.1 hnmem
      have ihr := ih hnodup.2 hmem2
      cases hc : rd0.has_config_field <;>
        simpa [define_resource_dictionary_cls, ConfigType.fields,
          resourceFields, hc, List.lookup, hne] using ihr

/-- C2 witness: a mode with one configured resource and one config-less
resource — the former's field is present, the latter's absent. -/
theorem C2_resources_shape_fields_witness :
    (((⟨"db", some (Fld.mk (.scalar "String") none true)⟩ :
        ResourceDefinition).config_field.isSome = true →
      (define_resource_dictionary_cls
        [("db", ⟨"db", some (Fld.mk (.scalar "String") none true)⟩),
         ("nc", ⟨"nc", none⟩)]).fields.lookup "db" =
        some (def_config_field
          ⟨"db", some (Fld.mk (.scalar "String") none true)⟩ none)) ∧
     ((⟨"db", some (Fld.mk (.scalar "String") none true)⟩ :
        ResourceDefinition).config_field = none →
      (define_resource_dictionary_cls
        [("db", ⟨"db", some (Fld.mk (.scalar "String") none true)⟩),
         ("nc", ⟨"nc", none⟩)]).fields.lookup "db" = none)) :=
  C2_resources_shape_fields
    [("db", ⟨"db", some (Fld.mk (.scalar "String") none true)⟩),
     ("nc", ⟨"nc", none⟩)]
    "db" ⟨"db", some (Fld.mk (.scalar "String") none true)⟩
    (by decide) (List.Mem.head _)

/-- C3 counterexample: with declared storages `custom` (whose config is
required) before `easy` (whose config is transitively optional), the spec's
rule picks `easy` and predicts default `{easy: {}}`, but the source examines
only the first declared storage and emits no default. -/
theorem C3_first_storage_only_counterexample :
    spec_storage_default
      (.selector
        [("custom",
          Fld.mk (.shape [("creds", Fld.mk (.scalar "String") none true)])
            none true),
         ("easy", Fld.mk (.shape []) none false)])
      ["custom", "easy"] = some (.dictVal [("easy", .dictVal [])]) ∧
    (define_storage_field
      (.selector
        [("custom",
          Fld.mk (.shape [("creds", Fld.mk (.scalar "String") none true)])
            none true),
         ("easy", Fld.mk (.shape []) none false)])
      ["custom", "easy"] ["in_memory", "filesystem"]).default_value =
      none :=
  ⟨rfl, rfl⟩

/-- C3 (amended): when the declared storage set differs from the default
set, the field's default is `{first_name: {}}` exactly when the FIRST
declared storage's own config is transitively optional; otherwise — even if
a later declared storage qualifies — the field carries no default. -/
theorem C3_storage_default_examines_first_only
    (storage_selector : ConfigType) (storage_names defaults : List String)
    (def_key : String) (rest : List String) (f : Fld)
    (hset : eqAsSets storage_names defaults = false)
    (hnames : storage_names = def_key :: rest)
    (hfield : storage_selector.fields.lookup def_key = some f) :
    (define_storage_field storage_selector storage_names
        defaults).default_value =
      (if all_optional_type f.config_type then
        some (.dictVal [(def_key, .dictVal [])])
      else none) := by
  subst hnames
  unfold define_storage_field
  cases h : all_optional_type f.config_type <;>
    simp [hset, hfield, h, mkField, Fld.default_value]

/-- C3 witness: a single declared all-optional storage gets the default. -/
theorem C3_storage_default_examines_first_only_witness :
    (define_storage_field (.selector [("easy", Fld.mk (.shape []) none false)])
        ["easy"] ["in_memory", "filesystem"]).default_value =
      (if all_optional_type (Fld.mk (.shape []) none false).config_type then
        some (.dictVal [("easy", .dictVal [])])
      else none) :=
  C3_storage_default_examines_first_only _ ["easy"] _ "easy" [] _ rfl rfl rfl

/-- C5: adding a step whose key was already seen does fail fast, but — when
the step dictionary is nonempty, as it always is after a genuine duplicate
insertion — the failure is an AttributeError raised while the source builds
its key dump (`[s.key for s in self._steps]` iterates the OrderedDict's
string keys), so the intended dump of observed keys never reaches the
message. -/
theorem C5_add_step_duplicate_raises_attribute_error
    (pb : PlanBuilderState) (step : ExecutionStep)
    (hdup : pb.seen_keys.contains step.key = true)
    (hnonempty : pb.steps ≠ []) :
    pb.add_step step =
      .error (.attributeError "'str' object has no attribute 'key'") := by
  cases hsteps : pb.steps with
  | nil => exact absurd hsteps hnonempty
  | cons a l =>
    unfold PlanBuilderState.add_step
    rw [hdup, hsteps]
    rfl

/-- C5 witness: a builder that already added step `A` crashes with the
AttributeError when `A` is added again. -/
theorem C5_add_step_duplicate_raises_attribute_error_witness :
    PlanBuilderState.add_step
      ⟨⟨"pipe", [], ⟨[]⟩, []⟩, ⟨[], none⟩, ⟨"default", [], []⟩,
        [("A", ⟨⟨["A"]⟩, [], []⟩)], [], ["A"]⟩
      ⟨⟨["A"]⟩, [], []⟩ =
      .error (.attributeError "'str' object has no attribute 'key'") :=
  C5_add_step_duplicate_raises_attribute_error _ _ (by decide)
    (List.cons_ne_nil _ _)

/-- C7: the plan-build guard raises the invariant violation instructing the
user to specify only one of intermediate storage and asset store exactly
when both are away from their in-memory defaults; when at least one is at
its default the guard passes. -/
theorem C7_storage_asset_store_mutual_exclusion
    (mode_def : ModeDefinition) (env : EnvironmentConfig)
    (asset_store : ResourceDefinition)
    (hres : mode_def.resource_defs.lookup "asset_store" = some asset_store) :
    (check_asset_store_intermediate_storage mode_def env =
        .error (.invariantViolation (assetStoreClashMsg
          (match env.intermediate_storage_def_for_mode mode_def with
           | some d => d.name
           | none => ""))) ↔
      (intermediate_storage_is_default mode_def env = false ∧
       resourceIs asset_store mem_asset_store = false)) ∧
    (check_asset_store_intermediate_storage mode_def env = .ok () ↔
      (intermediate_storage_is_default mode_def env = true ∨
       resourceIs asset_store mem_asset_store = true)) := by
  unfold check_asset_store_intermediate_storage
  rw [hres]
  cases hi : intermediate_storage_is_default mode_def env <;>
    cases ha : resourceIs asset_store mem_asset_store <;>
      simp [hi, ha]

/-- C7 witness: with the in-memory asset store and no declared storages the
guard passes; the raise-side of the equivalence is vacuously confirmed. -/
theorem C7_storage_asset_store_mutual_exclusion_witness :
    ((check_asset_store_intermediate_storage
        ⟨"default", [("asset_store", mem_asset_store)], []⟩ ⟨[], none⟩ =
        .error (.invariantViolation (assetStoreClashMsg
          (match EnvironmentConfig.intermediate_storage_def_for_mode
              ⟨[], none⟩ ⟨"default", [("asset_store", mem_asset_store)], []⟩
              with
           | some d => d.name
           | none => ""))) ↔
      (intermediate_storage_is_default
        ⟨"default", [("asset_store", mem_asset_store)], []⟩
        ⟨[], none⟩ = false ∧
       resourceIs mem_asset_store mem_asset_store = false)) ∧
     (check_asset_store_intermediate_storage
        ⟨"default", [("asset_store", mem_asset_store)], []⟩ ⟨[], none⟩ =
        .ok () ↔
      (intermediate_storage_is_default
        ⟨"default", [("asset_store", mem_asset_store)], []⟩
        ⟨[], none⟩ = true ∨
       resourceIs mem_asset_store mem_asset_store = true))) :=
  C7_storage_asset_store_mutual_exclusion
    ⟨"default", [("asset_store", mem_asset_store)], []⟩ ⟨[], none⟩
    mem_asset_store rfl

theorem find_update_status (l : List PipelineRun) (rid : String)
    (run : PipelineRun)
    (h : l.find? (fun r => r.run_id == rid) = some run) :
    (l.map (fun r =>
        if r.run_id == run.run_id then
          { r with status := PipelineRunStatus.failure }
        else r)).find? (fun r => r.run_id == rid) =
      some { run with status := PipelineRunStatus.failure } := by
  induction l with
  | nil => simp at h
  | cons a l ih =>
    cases hpr : (a.run_id == rid) with
    | true =>
      rw [List.find?_cons_of_pos (p := fun (r : PipelineRun) => r.run_id == rid) l hpr] at h
      obtain rfl : a = run := Option.some.inj h
      rw [List.map_cons, if_pos (beq_self_eq_true a.run_id)]
      exact List.find?_cons_of_pos (p := fun (r : PipelineRun) => r.run_id == rid) _ hpr
    | false =>
      rw [List.find?_cons_of_neg (p := fun (r : PipelineRun) => r.run_id == rid) l
        (by simp [hpr])] at h
      have hrun : (run.run_id == rid) = true := by
        simpa using List.find?_some h
      have hane : (a.run_id == run.run_id) = false := by
        cases hx : (a.run_id == run.run_id) with
        | false => rfl
        | true =>
          exfalso
          have hx2 : a.run_id = run.run_id := eq_of_beq hx
          rw [hx2, hrun] at hpr
          exact absurd hpr (by decide)
      rw [List.map_cons, if_neg (by simp [hane])]
      rw [List.find?_cons_of_neg (p := fun (r : PipelineRun) => r.run_id == rid) _
        (by simp [hpr])]
      exact ih h

/-- C9 counterexample: for a run that is already cancelled (status failure,
no longer QUEUED), `cancel_run` defers to the launcher's `terminate`; with a
launcher whose terminate answers true, the call returns true — not the
claimed false. -/
theorem C9_cancel_already_cancelled_counterexample :
    get_run_by_id ⟨[⟨"r1", "pipe", .failure⟩], []⟩ "r1" =
      some ⟨"r1", "pipe", .failure⟩ ∧
    (cancel_run ⟨fun _ s => (true, s)⟩ ⟨[⟨"r1", "pipe", .failure⟩], []⟩
        "r1").1 = true :=
  ⟨rfl, rfl⟩

/-- C9 (amended): a missing run yields false with no state change; a QUEUED
run yields true after appending the engine event and marking the run failed;
a run in any other status (including an already-cancelled one) yields
exactly the launcher's `terminate` result — false without side effects only
insofar as the launcher guarantees it. -/
theorem C9_cancel_run_characterization (launcher : RunLauncher)
    (s : InstanceState) (run_id : String) :
    (get_run_by_id s run_id = none →
      cancel_run launcher s run_id = (false, s)) ∧
    (∀ run, get_run_by_id s run_id = some run →
      run.status = .queued →
      (cancel_run launcher s run_id).1 = true ∧
      (cancel_run launcher s run_id).2.event_log =
        s.event_log ++ [.engineEvent run.run_id
          "Cancelling pipeline from the queue."] ∧
      get_run_by_id (cancel_run launcher s run_id).2 run_id =
        some { run with status := .failure }) ∧
    (∀ run, get_run_by_id s run_id = some run →
      run.status ≠ .queued →
      cancel_run launcher s run_id = launcher.terminate run_id s) := by
  refine ⟨?_, ?_, ?_⟩
  · intro h
    simp [cancel_run, h]
  · intro run h hq
    have hqb : (run.status == PipelineRunStatus.queued) = true := by
      simp [hq]
    refine ⟨?_, ?_, ?_⟩
    · simp [cancel_run, h, hqb]
    · simp [cancel_run, h, hqb, report_engine_event, report_run_failed]
    · simp only [cancel_run, h, hqb, if_true]
      simp only [get_run_by_id, report_run_failed, report_engine_event]
      exact find_update_status s.runs run_id run h
  · intro run h hq
    have hqb : (run.status == PipelineRunStatus.queued) = false :=
      beq_eq_false_iff_ne.mpr hq
    simp [cancel_run, h, hqb]

/-- C9 witness: a QUEUED run is cancelled — engine event appended, run
marked failed, result true. -/
theorem C9_cancel_run_characterization_witness :
    (cancel_run ⟨fun _ s => (false, s)⟩ ⟨[⟨"q1", "pipe", .queued⟩], []⟩
        "q1").1 = true ∧
    (cancel_run ⟨fun _ s => (false, s)⟩ ⟨[⟨"q1", "pipe", .queued⟩], []⟩
        "q1").2.event_log =
      [] ++ [.engineEvent "q1" "Cancelling pipeline from the queue."] ∧
    get_run_by_id
      (cancel_run ⟨fun _ s => (false, s)⟩ ⟨[⟨"q1", "pipe", .queued⟩], []⟩
        "q1").2 "q1" = some ⟨"q1", "pipe", .failure⟩ :=
  (C9_cancel_run_characterization ⟨fun _ s => (false, s)⟩
    ⟨[⟨"q1", "pipe", .queued⟩], []⟩ "q1").2.1
    ⟨"q1", "pipe", .queued⟩ rfl rfl

/-- C1: `get_step_input` resolves a node input by the first matching rule in
the fixed order — config entry, singular dependency, fan-in dependency,
resolved parent-graph remap, input default, Nothing-kind null, terminal
error — with the fan-in legs typed at the inner element type and
`check_for_missing` false for singular, true for fan-in legs. -/
theorem C1_get_step_input_rule_order
    (pb : PlanBuilderState) (solid : SolidNode) (input_name : String)
    (input_def : InputDefinition)
    (dependency_structure : DependencyStructure) (handle : SolidHandle)
    (container_input_mappings : List InputMapping)
    (parent_step_inputs : List StepInput) :
    (∀ v, (pb.environment_config.solids.lookup handle.toString).bind
        (fun sc => sc.inputs.lookup input_name) = some v →
      get_step_input pb solid input_name input_def dependency_structure
        handle container_input_mappings parent_step_inputs =
        .ok (some ⟨input_name, input_def.dagster_type,
          .fromConfig v input_def.dagster_type input_name⟩)) ∧
    ((pb.environment_config.solids.lookup handle.toString).bind
        (fun sc => sc.inputs.lookup input_name) = none →
      ∀ ref soh,
      dependency_structure.entryFor solid.name input_name =
        some (.singular ref) →
      pb.step_output_map.lookup (siblingOutputKey handle ref) = some soh →
      get_step_input pb solid input_name input_def dependency_structure
        handle container_input_mappings parent_step_inputs =
        .ok (some ⟨input_name, input_def.dagster_type,
          .fromStepOutput ⟨soh, input_def.dagster_type, false⟩⟩)) ∧
    ((pb.environment_config.solids.lookup handle.toString).bind
        (fun sc => sc.inputs.lookup input_name) = none →
      ∀ refs sohs,
      dependency_structure.entryFor solid.name input_name =
        some (.fanIn refs) →
      lookupOutputHandles pb.step_output_map handle refs = .ok sohs →
      get_step_input pb solid input_name input_def dependency_structure
        handle container_input_mappings parent_step_inputs =
        .ok (some ⟨input_name, input_def.dagster_type,
          .fromMultipleSources (sohs.map (fun soh =>
            ⟨soh, input_def.dagster_type.get_inner_type_for_fan_in,
              true⟩))⟩)) ∧
    ((pb.environment_config.solids.lookup handle.toString).bind
        (fun sc => sc.inputs.lookup input_name) = none →
      dependency_structure.entryFor solid.name input_name = none →
      ∀ m pi,
      container_mapped_input container_input_mappings solid.name
        input_name = some m →
      parent_step_inputs.reverse.find?
        (fun si => si.name == m.definition_name) = some pi →
      get_step_input pb solid input_name input_def dependency_structure
        handle container_input_mappings parent_step_inputs =
        .ok (some ⟨input_name, input_def.dagster_type, pi.source⟩)) ∧
    ((pb.environment_config.solids.lookup handle.toString).bind
        (fun sc => sc.inputs.lookup input_name) = none →
      dependency_structure.entryFor solid.name input_name = none →
      (∀ m, container_mapped_input container_input_mappings solid.name
          input_name = some m →
        parent_step_inputs.reverse.find?
          (fun si => si.name == m.definition_name) = none) →
      ∀ d, solid.definition.default_value_for_input input_name = some d →
      get_step_input pb solid input_name input_def dependency_structure
        handle container_input_mappings parent_step_inputs =
        .ok (some ⟨input_name, input_def.dagster_type,
          .fromDefaultValue d⟩)) ∧
    ((pb.environment_config.solids.lookup handle.toString).bind
        (fun sc => sc.inputs.lookup input_name) = none →
      dependency_structure.entryFor solid.name input_name = none →
      (∀ m, container_mapped_input container_input_mappings solid.name
          input_name = some m →
        parent_step_inputs.reverse.find?
          (fun si => si.name == m.definition_name) = none) →
      solid.definition.default_value_for_input input_name = none →
      input_def.dagster_type.kind = .nothing →
      get_step_input pb solid input_name input_def dependency_structure
        handle container_input_mappings parent_step_inputs = .ok none) ∧
    ((pb.environment_config.solids.lookup handle.toString).bind
        (fun sc => sc.inputs.lookup input_name) = none →
      dependency_structure.entryFor solid.name input_name = none →
      (∀ m, container_mapped_input container_input_mappings solid.name
          input_name = some m →
        parent_step_inputs.reverse.find?
          (fun si => si.name == m.definition_name) = none) →
      solid.definition.default_value_for_input input_name = none →
      input_def.dagster_type.kind ≠ .nothing →
      get_step_input pb solid input_name input_def dependency_structure
        handle container_input_mappings parent_step_inputs =
        .error (.invariantViolation
          (unresolvedInputMsg pb.pipeline.name solid.name input_name))) := by
  refine ⟨?_, ?_, ?_, ?_, ?_, ?_, ?_⟩
  · intro v hv
    simp [get_step_input, hv]
  · intro hc ref soh he hm
    simp [get_step_input, hc, he, hm]
  · intro hc refs sohs he hl
    simp [get_step_input, hc, he, hl, Except.map]
  · intro hc he m pi hm hp
    simp [get_step_input, hc, he, hm, hp]
  · intro hc he hr d hd
    cases hm : container_mapped_input container_input_mappings solid.name
        input_name with
    | none => simp [get_step_input, hc, he, hm, stepInputTail, hd]
    | some m =>
      have hp := hr m hm
      simp [get_step_input, hc, he, hm, hp, stepInputTail, hd]
  · intro hc he hr hd hk
    have hkb : (input_def.dagster_type.kind == DagsterTypeKind.nothing) =
        true := by simp [hk]
    cases hm : container_mapped_input container_input_mappings solid.name
        input_name with
    | none => simp [get_step_input, hc, he, hm, stepInputTail, hd, hkb]
    | some m =>
      have hp := hr m hm
      simp [get_step_input, hc, he, hm, hp, stepInputTail, hd, hkb]
  · intro hc he hr hd hk
    have hkb : (input_def.dagster_type.kind == DagsterTypeKind.nothing) =
        false := beq_eq_false_iff_ne.mpr hk
    cases hm : container_mapped_input container_input_mappings solid.name
        input_name with
    | none => simp [get_step_input, hc, he, hm, stepInputTail, hd, hkb]
    | some m =>
      have hp := hr m hm
      simp [get_step_input, hc, he, hm, hp, stepInputTail, hd, hkb]

/-- C1 witness: a configured input yields `FromConfig`. -/
theorem C1_get_step_input_rule_order_witness :
    get_step_input
      ⟨⟨"pipe", [], ⟨[]⟩, []⟩,
        ⟨[("A", ⟨[("x", .intVal 5)]⟩)], none⟩,
        ⟨"default", [], []⟩, [], [], []⟩
      (.mk "A" (.solidDef [⟨"x", .base "Int" .regular, none⟩] []))
      "x" ⟨"x", .base "Int" .regular, none⟩ ⟨[]⟩ ⟨["A"]⟩ [] [] =
      .ok (some ⟨"x", .base "Int" .regular,
        .fromConfig (.intVal 5) (.base "Int" .regular) "x"⟩) :=
  (C1_get_step_input_rule_order
    ⟨⟨"pipe", [], ⟨[]⟩, []⟩,
      ⟨[("A", ⟨[("x", .intVal 5)]⟩)], none⟩,
      ⟨"default", [], []⟩, [], [], []⟩
    (.mk "A" (.solidDef [⟨"x", .base "Int" .regular, none⟩] []))
    "x" ⟨"x", .base "Int" .regular, none⟩ ⟨[]⟩ ⟨["A"]⟩ [] []).1
    (.intVal 5) rfl

/-- C4 counterexample: the unsatisfiable input `z` of leaf `F` raises a
DagsterInvariantViolationError, not the claimed DefinitionError
(DagsterInvalidDefinitionError). -/
theorem C4_error_kind_counterexample :
    get_step_input
      ⟨⟨"pipe", [], ⟨[]⟩, []⟩, ⟨[], none⟩, ⟨"default", [], []⟩, [], [], []⟩
      (.mk "F" (.solidDef [⟨"z", .base "Int" .regular, none⟩] []))
      "z" ⟨"z", .base "Int" .regular, none⟩ ⟨[]⟩ ⟨["F"]⟩ [] [] =
      .error (.invariantViolation (unresolvedInputMsg "pipe" "F" "z")) ∧
    resultIsInvalidDefinition
      (get_step_input
        ⟨⟨"pipe", [], ⟨[]⟩, []⟩, ⟨[], none⟩, ⟨"default", [], []⟩, [], [], []⟩
        (.mk "F" (.solidDef [⟨"z", .base "Int" .regular, none⟩] []))
        "z" ⟨"z", .base "Int" .regular, none⟩ ⟨[]⟩ ⟨["F"]⟩ [] []) = false :=
  ⟨rfl, rfl⟩

/-- C4 (amended): an input with no config entry, no dependency, no resolved
parent remap, no default, and a non-Nothing kind raises a
DagsterInvariantViolationError whose message names the pipeline, the node,
and the input. -/
theorem C4_unresolved_input_raises_invariant_violation
    (pb : PlanBuilderState) (solid : SolidNode) (input_name : String)
    (input_def : InputDefinition)
    (dependency_structure : DependencyStructure) (handle : SolidHandle)
    (container_input_mappings : List InputMapping)
    (parent_step_inputs : List StepInput)
    (hc : (pb.environment_config.solids.lookup handle.toString).bind
      (fun sc => sc.inputs.lookup input_name) = none)
    (he : dependency_structure.entryFor solid.name input_name = none)
    (hr : ∀ m, container_mapped_input container_input_mappings solid.name
        input_name = some m →
      parent_step_inputs.reverse.find?
        (fun si => si.name == m.definition_name) = none)
    (hd : solid.definition.default_value_for_input input_name = none)
    (hk : input_def.dagster_type.kind ≠ .nothing) :
    get_step_input pb solid input_name input_def dependency_structure
      handle container_input_mappings parent_step_inputs =
      .error (.invariantViolation
        (unresolvedInputMsg pb.pipeline.name solid.name input_name)) := by
  have hkb : (input_def.dagster_type.kind == DagsterTypeKind.nothing) =
      false := beq_eq_false_iff_ne.mpr hk
  cases hm : container_mapped_input container_input_mappings solid.name
      input_name with
  | none => simp [get_step_input, hc, he, hm, stepInputTail, hd, hkb]
  | some m =>
    have hp := hr m hm
    simp [get_step_input, hc, he, hm, hp, stepInputTail, hd, hkb]

/-- C4 witness: the concrete unsatisfiable input of the counterexample,
via the amended theorem. -/
theorem C4_unresolved_input_raises_invariant_violation_witness :
    get_step_input
      ⟨⟨"pipe2", [], ⟨[]⟩, []⟩, ⟨[], none⟩, ⟨"default", [], []⟩, [], [], []⟩
      (.mk "G" (.solidDef [⟨"w", .base "Int" .regular, none⟩] []))
      "w" ⟨"w", .base "Int" .regular, none⟩ ⟨[]⟩ ⟨["G"]⟩ [] [] =
      .error (.invariantViolation (unresolvedInputMsg "pipe2" "G" "w")) :=
  C4_unresolved_input_raises_invariant_violation
    ⟨⟨"pipe2", [], ⟨[]⟩, []⟩, ⟨[], none⟩, ⟨"default", [], []⟩, [], [], []⟩
    (.mk "G" (.solidDef [⟨"w", .base "Int" .regular, none⟩] []))
    "w" ⟨"w", .base "Int" .regular, none⟩ ⟨[]⟩ ⟨["G"]⟩ [] []
    rfl rfl (fun _ hm => Option.noConfusion hm) rfl (by decide)

/-- C6: `build_subset_plan` keeps the step dictionary, the deps, and the
rest of the plan, installing the requested subset; it raises
DagsterExecutionStepNotFoundError exactly when a requested key is absent;
and on a valid subset it is idempotent. -/
theorem C6_build_subset_plan_characterization
    (p : ExecutionPlan) (S : List String) :
    ((∀ k ∈ S, (p.step_dict.lookup k).isSome = true) →
      p.build_subset_plan S =
        .ok ⟨p.pipeline, p.step_dict, p.deps, p.artifacts_persisted, S,
          p.environment_config⟩) ∧
    ((∃ k ∈ S, p.step_dict.lookup k = none) →
      p.build_subset_plan S =
        .error (.stepNotFoundError
          (stepNotFoundMsg
            (S.filter (fun k => (p.step_dict.lookup k).isNone)))
          (S.filter (fun k => (p.step_dict.lookup k).isNone)))) ∧
    (∀ q, p.build_subset_plan S = .ok q →
      q.build_subset_plan S = .ok q) := by
  refine ⟨?_, ?_, ?_⟩
  · intro hall
    have hfilter : S.filter (fun k => (p.step_dict.lookup k).isNone) = [] :=
      by
      rw [List.filter_eq_nil_iff]
      intro a ha
      have h1 := hall a ha
      cases hl : p.step_dict.lookup a with
      | none => rw [hl] at h1; exact absurd h1 (by decide)
      | some v => simp [hl]
    simp [ExecutionPlan.build_subset_plan, ExecutionPlan.mkChecked, hfilter]
  · rintro ⟨k, hk, hnone⟩
    have hne : S.filter (fun k => (p.step_dict.lookup k).isNone) ≠ [] := by
      intro h0
      have h1 := List.filter_eq_nil_iff.mp h0 k hk
      simp [hnone] at h1
    cases hemp : (S.filter (fun k => (p.step_dict.lookup k).isNone)).isEmpty
      with
    | true => exact absurd (by simpa using hemp) hne
    | false =>
      simp [ExecutionPlan.build_subset_plan, ExecutionPlan.mkChecked, hemp]
  · intro q hq
    simp only [ExecutionPlan.build_subset_plan, ExecutionPlan.mkChecked]
      at hq ⊢
    cases hemp : (S.filter (fun k => (p.step_dict.lookup k).isNone)).isEmpty
      with
    | false =>
      rw [hemp] at hq
      exact absurd hq (by simp)
    | true =>
      rw [hemp] at hq
      obtain rfl : (⟨p.pipeline, p.step_dict, p.deps, p.artifacts_persisted,
          S, p.environment_config⟩ : ExecutionPlan) = q := by
        simpa using hq
      simp [hemp]

/-- C6 witness: a one-step plan subset to its own step. -/
theorem C6_build_subset_plan_characterization_witness :
    ExecutionPlan.build_subset_plan
      ⟨⟨"pipe", [], ⟨[]⟩, []⟩, [("A", ⟨⟨["A"]⟩, [], []⟩)], [("A", [])],
        false, ["A"], ⟨[], none⟩⟩ ["A"] =
      .ok ⟨⟨"pipe", [], ⟨[]⟩, []⟩, [("A", ⟨⟨["A"]⟩, [], []⟩)], [("A", [])],
        false, ["A"], ⟨[], none⟩⟩ :=
  (C6_build_subset_plan_characterization
    ⟨⟨"pipe", [], ⟨[]⟩, []⟩, [("A", ⟨⟨["A"]⟩, [], []⟩)], [("A", [])],
      false, ["A"], ⟨[], none⟩⟩ ["A"]).1 (by decide)

/-- C10: passing `step_keys_to_execute = []` builds the very same plan as
passing no subset at all (Python's `or` treats the empty list as falsy), and
the resulting plan's `step_keys_to_execute` is the full traversal-order key
list — the keys of the step dictionary in order. -/
theorem C10_empty_step_keys_is_full_plan
    (pipeline : PipelineDefinition) (environment_config : EnvironmentConfig)
    (mode : Option String) :
    ExecutionPlan.build pipeline environment_config mode (some []) =
      ExecutionPlan.build pipeline environment_config mode none ∧
    (∀ plan,
      ExecutionPlan.build pipeline environment_config mode none =
        .ok plan →
      plan.step_keys_to_execute = plan.step_dict.map Prod.fst) := by
  constructor
  · rfl
  · intro plan h
    unfold ExecutionPlan.build at h
    split at h
    · exact absurd h (by simp)
    · split at h
      · exact absurd h (by simp)
      · split at h
        · exact absurd h (by simp)
        · split at h
          · exact absurd h (by simp)
          · simp only [ExecutionPlan.mkChecked] at h
            split at h
            · injection h with h5
              subst h5
              simp [effectiveStepKeys, List.map_map, Function.comp]
            · exact absurd h (by simp)

/-- C10 witness: a concrete one-solid pipeline builds successfully and its
plan executes its full traversal-order key list. -/
theorem string_intercalate_single (s a : String) : s.intercalate [a] = a :=
  rfl

theorem c10_build_eval :
    ExecutionPlan.build c10_pipeline c10_env none none = .ok c10_plan := by
  simp only [ExecutionPlan.build, chooseMode, c10_pipeline, c10_env,
    c10_plan, buildSolids, buildOneSolid, collectStepInputs,
    setOutputHandles, PlanBuilderState.add_step, create_compute_step,
    SolidHandle.child, SolidHandle.toString, ExecutionStep.key,
    ExecutionPlan.mkChecked, effectiveStepKeys, buildDeps,
    check_asset_store_intermediate_storage, intermediate_storage_is_default,
    storage_is_persistent, EnvironmentConfig.intermediate_storage_def_for_mode,
    EnvironmentConfig.intermediate_storage_name,
    ModeDefinition.get_intermediate_storage_def, mem_intermediate_storage,
    mem_asset_store, resourceIs, dictInsert, NodeDefinition.resolveOutput,
    StepInputSource.dependency_keys, DependencyStructure.entryFor,
    NodeDefinition.input_defs, NodeDefinition.output_defs, SolidNode.name,
    SolidNode.definition, siblingOutputKey, List.lookup, List.find?,
    List.head?, List.contains, List.elem, List.filter, List.map,
    List.isEmpty, List.nil_append, Option.isSome,
    string_intercalate_single, Bool.false_eq_true, Bool.true_eq_false,
    ite_false, ite_true, beq_self_eq_true, Option.getD, Option.isNone,
    Bool.not_true, Bool.false_and, List.flatten]

theorem C10_empty_step_keys_is_full_plan_witness :
    ExecutionPlan.build c10_pipeline c10_env none (some []) =
      ExecutionPlan.build c10_pipeline c10_env none none ∧
    c10_plan.step_keys_to_execute = c10_plan.step_dict.map Prod.fst :=
  ⟨(C10_empty_step_keys_is_full_plan c10_pipeline c10_env none).1,
   (C10_empty_step_keys_is_full_plan c10_pipeline c10_env none).2
     c10_plan c10_build_eval⟩

/-! ## C8: the type-registry characterization -/

theorem lookup_append {κ α : Type} [BEq κ] (l1 l2 : List (κ × α)) (k : κ) :
    (l1 ++ l2).lookup k =
      (match l1.lookup k with
       | some v => some v
       | none => l2.lookup k) := by
  induction l1 with
  | nil => simp [List.lookup]
  | cons p rest ih =>
    obtain ⟨a, b⟩ := p
    simp only [List.cons_append, List.lookup]
    cases k == a <;> simp [ih]

theorem lookup_replace_self {κ α : Type} [BEq κ] [LawfulBEq κ]
    (l : List (κ × α)) (k : κ) (v : α) :
    (l.map (fun p => if p.1 == k then (k, v) else p)).lookup k =
      (if (l.lookup k).isSome then some v else none) := by
  induction l with
  | nil => simp [List.lookup]
  | cons p rest ih =>
    obtain ⟨a, b⟩ := p
    cases hab : (a == k) with
    | true =>
      have ha : a = k := eq_of_beq hab
      subst ha
      simp only [List.map_cons]
      rw [if_pos hab]
      simp [List.lookup, hab]
    | false =>
      have hne : a ≠ k := by simpa using hab
      have hka : (k == a) = false := beq_eq_false_iff_ne.mpr (Ne.symm hne)
      simp only [List.map_cons]
      rw [if_neg (by simp [hab])]
      simp only [List.lookup]
      simp only [hka]
      simp [ih]

theorem lookup_replace_ne {κ α : Type} [BEq κ] [LawfulBEq κ]
    (l : List (κ × α)) (k k2 : κ) (v : α) (h : k2 ≠ k) :
    (l.map (fun p => if p.1 == k then (k, v) else p)).lookup k2 =
      l.lookup k2 := by
  induction l with
  | nil => simp
  | cons p rest ih =>
    obtain ⟨a, b⟩ := p
    have hk2k : (k2 == k) = false := beq_eq_false_iff_ne.mpr h
    cases hab : (a == k) with
    | true =>
      have ha : a = k := eq_of_beq hab
      subst ha
      simp only [List.map_cons]
      rw [if_pos hab]
      simp [List.lookup, hk2k, ih]
    | false =>
      simp only [List.map_cons]
      rw [if_neg (by simp [hab])]
      simp only [List.lookup]
      cases k2 == a <;> simp [ih]

theorem dictInsert_lookup_self {κ α : Type} [BEq κ] [LawfulBEq κ]
    (l : List (κ × α)) (k : κ) (v : α) :
    (dictInsert l k v).lookup k = some v := by
  unfold dictInsert
  cases hs : (l.lookup k).isSome with
  | true =>
    simp only [hs, if_true]
    rw [lookup_replace_self, hs]
    simp
  | false =>
    have hnone : l.lookup k = none := by
      cases hl : l.lookup k with
      | none => rfl
      | some w => rw [hl] at hs; simp at hs
    simp only [hs, Bool.false_eq_true, if_false]
    rw [lookup_append, hnone]
    simp [List.lookup]

theorem dictInsert_lookup_ne {κ α : Type} [BEq κ] [LawfulBEq κ]
    (l : List (κ × α)) (k k2 : κ) (v : α) (h : k2 ≠ k) :
    (dictInsert l k v).lookup k2 = l.lookup k2 := by
  unfold dictInsert
  cases hs : (l.lookup k).isSome with
  | true =>
    simp only [hs, if_true]
    exact lookup_replace_ne l k k2 v h
  | false =>
    simp only [hs, Bool.false_eq_true, if_false]
    rw [lookup_append]
    cases hl : l.lookup k2 with
    | some w => simp
    | none => simp [List.lookup, beq_eq_false_iff_ne.mpr h]

theorem dictInsert_lookup_isSome_mono {κ α : Type} [BEq κ] [LawfulBEq κ]
    (l : List (κ × α)) (k k2 : κ) (v : α)
    (h : (l.lookup k2).isSome = true) :
    ((dictInsert l k v).lookup k2).isSome = true := by
  by_cases hk : k2 = k
  · subst hk
    rw [dictInsert_lookup_self]
    rfl
  · rw [dictInsert_lookup_ne l k k2 v hk]
    exact h

theorem firstNamed_cons_of_miss (t : CType) (rest : List CType) (n : String)
    (h : (t.given_name == some n) = false) :
    firstNamed (t :: rest) n = firstNamed rest n := by
  simp [firstNamed, List.find?, h]

theorem firstNamed_cons_of_hit (t : CType) (rest : List CType) (n : String)
    (h : (t.given_name == some n) = true) :
    firstNamed (t :: rest) n = some t := by
  simp [firstNamed, List.find?, h]

theorem firstNamed_none_of_not_mem (ts : List CType) (n : String)
    (h : n ∉ ts.filterMap (fun t => t.given_name)) :
    firstNamed ts n = none := by
  induction ts with
  | nil => rfl
  | cons t rest ih =>
    cases hg : t.given_name with
    | none =>
      rw [firstNamed_cons_of_miss t rest n (by simp [hg])]
      exact ih (by simpa [List.filterMap_cons, hg] using h)
    | some m =>
      simp only [List.filterMap_cons, hg, List.mem_cons, not_or] at h
      rw [firstNamed_cons_of_miss t rest n (by simp [hg, Ne.symm h.1])]
      exact ih h.2

theorem firstNamed_unique_of_nodup (ts : List CType) (n : String)
    (b : CType) (hnd : (ts.filterMap (fun t => t.given_name)).Nodup)
    (hb : b ∈ ts) (hbn : b.given_name = some n) :
    firstNamed ts n = some b := by
  induction ts with
  | nil => cases hb
  | cons t rest ih =>
    rcases List.mem_cons.mp hb with rfl | hb2
    · exact firstNamed_cons_of_hit b rest n (by simp [hbn])
    · have hmem : n ∈ rest.filterMap (fun t => t.given_name) := by
        exact List.mem_filterMap.mpr ⟨b, hb2, hbn⟩
      cases hg : t.given_name with
      | none =>
        rw [firstNamed_cons_of_miss t rest n (by simp [hg])]
        exact ih (by simpa [List.filterMap_cons, hg] using hnd) hb2
      | some m =>
        simp only [List.filterMap_cons, hg, List.nodup_cons] at hnd
        have hne : m ≠ n := fun h => hnd.1 (h ▸ hmem)
        rw [firstNamed_cons_of_miss t rest n (by simp [hg, hne])]
        exact ih hnd.2 hb2

theorem firstNamed_props (ts : List CType) (n : String) (f : CType)
    (h : firstNamed ts n = some f) :
    f ∈ ts ∧ f.given_name = some n := by
  refine ⟨List.mem_of_find?_eq_some h, ?_⟩
  have := List.find?_some h
  simpa using this

theorem firstNamed_isSome (ts : List CType) (n : String) (t : CType)
    (ht : t ∈ ts) (hn : t.given_name = some n) :
    ∃ f, firstNamed ts n = some f := by
  induction ts with
  | nil => cases ht
  | cons u rest ih =>
    cases hu : (u.given_name == some n) with
    | true => exact ⟨u, firstNamed_cons_of_hit u rest n hu⟩
    | false =>
      rw [firstNamed_cons_of_miss u rest n hu]
      rcases List.mem_cons.mp ht with rfl | ht2
      · rw [hn] at hu; simp at hu
      · exact ih ht2

theorem seedByName_aux (ts : List CType) :
    ∀ (acc : List (String × CType)) (n : String),
    (ts.filterMap (fun t => t.given_name)).Nodup →
    ((ts.foldl (fun a t =>
        match t.given_name with
        | some m => dictInsert a m t
        | none => a) acc).lookup n) =
      (match firstNamed ts n with
       | some t => some t
       | none => acc.lookup n) := by
  induction ts with
  | nil => intro acc n _; rfl
  | cons t rest ih =>
    intro acc n hnd
    simp only [List.foldl_cons]
    cases hg : t.given_name with
    | none =>
      rw [ih _ n (by simpa [List.filterMap_cons, hg] using hnd)]
      rw [firstNamed_cons_of_miss t rest n (by simp [hg])]
    | some m =>
      simp only [List.filterMap_cons, hg, List.nodup_cons] at hnd
      by_cases hmn : n = m
      · subst hmn
        rw [ih _ n hnd.2]
        rw [firstNamed_cons_of_hit t rest n (by simp [hg])]
        rw [firstNamed_none_of_not_mem rest n hnd.1]
        exact dictInsert_lookup_self acc n t
      · rw [ih _ n hnd.2]
        rw [firstNamed_cons_of_miss t rest n (by simp [hg, Ne.symm hmn])]
        cases hfn : firstNamed rest n with
        | some u => rfl
        | none => exact dictInsert_lookup_ne acc m n t hmn

/-- The by-name seed of the registry holds exactly the named builtins, one
per name when builtin names are distinct. -/
theorem seedByName_lookup (builtins : List CType) (n : String)
    (hnd : (builtins.filterMap (fun t => t.given_name)).Nodup) :
    (seedByName builtins).lookup n = firstNamed builtins n := by
  unfold seedByName
  rw [seedByName_aux builtins [] n hnd]
  cases firstNamed builtins n <;> rfl

theorem refAt_cons_skip (bn : List (String × CType)) (t : CType)
    (rest : List CType) (n : String)
    (h : (t.given_name == some n) = false) :
    refAt bn (t :: rest) n = refAt bn rest n := by
  unfold refAt
  rw [firstNamed_cons_of_miss t rest n h]

theorem refAt_cons_found (bn : List (String × CType)) (t : CType)
    (rest : List CType) (n : String) (b : CType)
    (h : bn.lookup n = some b) :
    refAt bn (t :: rest) n = some b := by
  unfold refAt
  rw [h]

theorem refAt_cons_new (bn : List (String × CType)) (t : CType)
    (rest : List CType) (n : String) (hg : t.given_name = some n)
    (hmiss : bn.lookup n = none) :
    refAt bn (t :: rest) n = some t := by
  unfold refAt
  rw [hmiss, firstNamed_cons_of_hit t rest n (by simp [hg])]

theorem refAt_insert (bn : List (String × CType)) (t : CType)
    (rest : List CType) (m : String) (hg : t.given_name = some m)
    (hmiss : bn.lookup m = none) (n : String) :
    refAt (dictInsert bn m t) rest n = refAt bn (t :: rest) n := by
  by_cases h : n = m
  · subst h
    rw [refAt_cons_new bn t rest n hg hmiss]
    unfold refAt
    rw [dictInsert_lookup_self]
  · unfold refAt
    rw [dictInsert_lookup_ne bn m n t h,
      firstNamed_cons_of_miss t rest n (by simp [hg, Ne.symm h])]

theorem refAt_cons_existing (bn : List (String × CType)) (t : CType)
    (rest : List CType) (m : String) (b : CType)
    (hg : t.given_name = some m) (hfound : bn.lookup m = some b)
    (n : String) :
    refAt bn (t :: rest) n = refAt bn rest n := by
  by_cases h : n = m
  · subst h
    rw [refAt_cons_found bn t rest n b hfound]
    unfold refAt
    rw [hfound]
  · exact refAt_cons_skip bn t rest n (by simp [hg, Ne.symm h])

/-- The registry loop raises (always a DagsterInvalidDefinitionError) iff
some gathered type's name is bound — in the by-name index or, failing that,
by the first gathered type of that name — to a differing structural
variant. -/
theorem configTypeLoop_error_iff (ts : List CType) :
    ∀ by_name by_key : List (String × CType),
    (∃ msg, configTypeLoop by_name by_key ts =
        .error (.invalidDefinition msg)) ↔
      ∃ t ∈ ts, clashAt by_name ts t := by
  induction ts with
  | nil =>
    intro bn bk
    simp [configTypeLoop]
  | cons t rest ih =>
    intro bn bk
    cases hg : t.given_name with
    | none =>
      have hstep : configTypeLoop bn bk (t :: rest) =
          configTypeLoop bn (dictInsert bk t.key t) rest := by
        simp [configTypeLoop, hg]
      rw [hstep, ih]
      constructor
      · rintro ⟨u, hu, n, hn, r, hr, hv⟩
        refine ⟨u, List.mem_cons_of_mem _ hu, n, hn, r, ?_, hv⟩
        rw [refAt_cons_skip bn t rest n (by simp [hg])]
        exact hr
      · rintro ⟨u, hu, n, hn, r, hr, hv⟩
        rcases List.mem_cons.mp hu with rfl | hu2
        · rw [hg] at hn
          cases hn
        · refine ⟨u, hu2, n, hn, r, ?_, hv⟩
          rw [← refAt_cons_skip bn t rest n (by simp [hg])]
          exact hr
    | some m =>
      cases hf : bn.lookup m with
      | some existing =>
        by_cases hvar : t.variant = existing.variant
        · have hstep : configTypeLoop bn bk (t :: rest) =
              configTypeLoop bn (dictInsert bk t.key t) rest := by
            simp [configTypeLoop, hg, hf, hvar]
          rw [hstep, ih]
          constructor
          · rintro ⟨u, hu, n, hn, r, hr, hv⟩
            refine ⟨u, List.mem_cons_of_mem _ hu, n, hn, r, ?_, hv⟩
            rw [refAt_cons_existing bn t rest m existing hg hf n]
            exact hr
          · rintro ⟨u, hu, n, hn, r, hr, hv⟩
            rcases List.mem_cons.mp hu with rfl | hu2
            · rw [hg] at hn
              injection hn with hn2
              subst hn2
              rw [refAt_cons_found bn u rest m existing hf] at hr
              injection hr with hr2
              subst hr2
              exact absurd hvar.symm hv
            · refine ⟨u, hu2, n, hn, r, ?_, hv⟩
              rw [← refAt_cons_existing bn t rest m existing hg hf n]
              exact hr
        · have hstep : configTypeLoop bn bk (t :: rest) =
              .error (.invalidDefinition (nameClashMsg m)) := by
            simp [configTypeLoop, hg, hf, hvar]
          rw [hstep]
          constructor
          · intro _
            refine ⟨t, List.mem_cons_self t rest, m, hg, existing,
              refAt_cons_found bn t rest m existing hf, ?_⟩
            exact fun h => hvar h.symm
          · intro _
            exact ⟨nameClashMsg m, rfl⟩
      | none =>
        have hstep : configTypeLoop bn bk (t :: rest) =
            configTypeLoop (dictInsert bn m t) (dictInsert bk t.key t)
              rest := by
          simp [configTypeLoop, hg, hf]
        rw [hstep, ih]
        constructor
        · rintro ⟨u, hu, n, hn, r, hr, hv⟩
          refine ⟨u, List.mem_cons_of_mem _ hu, n, hn, r, ?_, hv⟩
          rw [← refAt_insert bn t rest m hg hf n]
          exact hr
        · rintro ⟨u, hu, n, hn, r, hr, hv⟩
          rcases List.mem_cons.mp hu with rfl | hu2
          · rw [hg] at hn
            injection hn with hn2
            subst hn2
            rw [refAt_cons_new bn u rest m hg hf] at hr
            injection hr with hr2
            subst hr2
            exact absurd rfl hv
          · refine ⟨u, hu2, n, hn, r, ?_, hv⟩
            rw [refAt_insert bn t rest m hg hf n]
            exact hr

/-- On success the registry loop preserves existing index entries and
records every processed type: its key in the by-key index and its given
name in the by-name index. -/
theorem configTypeLoop_mem (ts : List CType) :
    ∀ (bn bk : List (String × CType))
      (out : List (String × CType) × List (String × CType)),
    configTypeLoop bn bk ts = .ok out →
    (∀ n, (bn.lookup n).isSome = true → (out.1.lookup n).isSome = true) ∧
    (∀ k, (bk.lookup k).isSome = true → (out.2.lookup k).isSome = true) ∧
    (∀ t ∈ ts, (out.2.lookup t.key).isSome = true ∧
      ∀ n, t.given_name = some n → (out.1.lookup n).isSome = true) := by
  induction ts with
  | nil =>
    intro bn bk out h
    simp only [configTypeLoop, Except.ok.injEq] at h
    subst h
    exact ⟨fun n h => h, fun k h => h, by simp⟩
  | cons t rest ih =>
    intro bn bk out h
    cases hg : t.given_name with
    | none =>
      rw [show configTypeLoop bn bk (t :: rest) =
          configTypeLoop bn (dictInsert bk t.key t) rest from by
        simp [configTypeLoop, hg]] at h
      obtain ⟨ihn, ihk, iht⟩ := ih bn (dictInsert bk t.key t) out h
      refine ⟨ihn, fun k hk =>
        ihk k (dictInsert_lookup_isSome_mono bk t.key k t hk), ?_⟩
      intro u hu
      rcases List.mem_cons.mp hu with rfl | hu2
      · refine ⟨ihk u.key (by rw [dictInsert_lookup_self]; rfl), ?_⟩
        intro n hn
        rw [hg] at hn
        cases hn
      · exact iht u hu2
    | some m =>
      cases hf : bn.lookup m with
      | some existing =>
        by_cases hvar : t.variant = existing.variant
        · rw [show configTypeLoop bn bk (t :: rest) =
              configTypeLoop bn (dictInsert bk t.key t) rest from by
            simp [configTypeLoop, hg, hf, hvar]] at h
          obtain ⟨ihn, ihk, iht⟩ := ih bn (dictInsert bk t.key t) out h
          refine ⟨ihn, fun k hk =>
            ihk k (dictInsert_lookup_isSome_mono bk t.key k t hk), ?_⟩
          intro u hu
          rcases List.mem_cons.mp hu with rfl | hu2
          · refine ⟨ihk u.key (by rw [dictInsert_lookup_self]; rfl), ?_⟩
            intro n hn
            rw [hg] at hn
            injection hn with hn2
            subst hn2
            exact ihn m (by rw [hf]; rfl)
          · exact iht u hu2
        · rw [show configTypeLoop bn bk (t :: rest) =
              .error (.invalidDefinition (nameClashMsg m)) from by
            simp [configTypeLoop, hg, hf, hvar]] at h
          cases h
      | none =>
        rw [show configTypeLoop bn bk (t :: rest) =
            configTypeLoop (dictInsert bn m t) (dictInsert bk t.key t)
              rest from by simp [configTypeLoop, hg, hf]] at h
        obtain ⟨ihn, ihk, iht⟩ :=
          ih (dictInsert bn m t) (dictInsert bk t.key t) out h
        refine ⟨fun n hn =>
            ihn n (dictInsert_lookup_isSome_mono bn m n t hn),
          fun k hk =>
            ihk k (dictInsert_lookup_isSome_mono bk t.key k t hk), ?_⟩
        intro u hu
        rcases List.mem_cons.mp hu with rfl | hu2
        · refine ⟨ihk u.key (by rw [dictInsert_lookup_self]; rfl), ?_⟩
          intro n hn
          rw [hg] at hn
          injection hn with hn2
          subst hn2
          exact ihn m (by rw [dictInsert_lookup_self]; rfl)
        · exact iht u hu2

theorem lastKeyed_cons (t : CType) (rest : List CType) (k : String) :
    lastKeyed (t :: rest) k =
      (match lastKeyed rest k with
       | some u => some u
       | none => if t.key == k then some t else none) := by
  simp only [lastKeyed, List.reverse_cons, List.find?_append]
  cases rest.reverse.find? (fun t => t.key == k) with
  | some u => rfl
  | none =>
    simp only [Option.or]
    cases hk : (t.key == k) <;> simp [List.find?, hk]

/-- On success the final by-key index holds, for every key, the last
processed type with that key (last writer wins), falling back to the seeded
entry. -/
theorem configTypeLoop_key_lastwins (ts : List CType) :
    ∀ (bn bk : List (String × CType))
      (out : List (String × CType) × List (String × CType)),
    configTypeLoop bn bk ts = .ok out →
    ∀ k, out.2.lookup k =
      (match lastKeyed ts k with
       | some u => some u
       | none => bk.lookup k) := by
  induction ts with
  | nil =>
    intro bn bk out h k
    simp only [configTypeLoop, Except.ok.injEq] at h
    subst h
    rfl
  | cons t rest ih =>
    intro bn bk out h k
    have hnext :
        ∃ bn2, configTypeLoop bn2 (dictInsert bk t.key t) rest = .ok out := by
      cases hg : t.given_name with
      | none =>
        exact ⟨bn, by
          rw [show configTypeLoop bn bk (t :: rest) =
              configTypeLoop bn (dictInsert bk t.key t) rest from by
            simp [configTypeLoop, hg]] at h
          exact h⟩
      | some m =>
        cases hf : bn.lookup m with
        | some existing =>
          by_cases hvar : t.variant = existing.variant
          · exact ⟨bn, by
              rw [show configTypeLoop bn bk (t :: rest) =
                  configTypeLoop bn (dictInsert bk t.key t) rest from by
                simp [configTypeLoop, hg, hf, hvar]] at h
              exact h⟩
          · rw [show configTypeLoop bn bk (t :: rest) =
                .error (.invalidDefinition (nameClashMsg m)) from by
              simp [configTypeLoop, hg, hf, hvar]] at h
            cases h
        | none =>
          exact ⟨dictInsert bn m t, by
            rw [show configTypeLoop bn bk (t :: rest) =
                configTypeLoop (dictInsert bn m t) (dictInsert bk t.key t)
                  rest from by simp [configTypeLoop, hg, hf]] at h
            exact h⟩
    obtain ⟨bn2, h2⟩ := hnext
    rw [ih bn2 (dictInsert bk t.key t) out h2 k, lastKeyed_cons]
    cases lastKeyed rest k with
    | some u => rfl
    | none =>
      by_cases hk : k = t.key
      · subst hk
        rw [dictInsert_lookup_self]
        simp [beq_self_eq_true]
      · rw [dictInsert_lookup_ne bk t.key k t hk]
        rw [if_neg (by simp; exact Ne.symm hk)]

/-- C8 counterexample: a single gathered Shape named like the builtin Int
scalar makes `construct_config_type_dictionary` raise, although no two
GATHERED types share a given name — the claim's "iff" fails in the
right-to-left-free direction. -/
theorem C8_builtin_name_clash_counterexample :
    construct_config_type_dictionary
      [⟨"int_key", some "Int", .scalarV⟩]
      [⟨"shape_key", some "Int", .shapeV⟩] =
      .error (.invalidDefinition (nameClashMsg "Int")) ∧
    ∀ t1 ∈ [(⟨"shape_key", some "Int", .shapeV⟩ : CType)],
      ∀ t2 ∈ [(⟨"shape_key", some "Int", .shapeV⟩ : CType)],
      t1.variant = t2.variant :=
  ⟨rfl, by decide⟩

/-- C8 (amended): with the builtin names pairwise distinct,
`construct_config_type_dictionary` raises DagsterInvalidDefinitionError iff
two gathered types with the same given name have differing structural
variants, or a gathered type's given name matches a named builtin of a
differing variant; on success the by-key index has an entry for every
gathered type's key and the by-name index for every gathered type's given
name; and the final by-key entry of a key is the last gathered type with
that key (last writer wins). -/
theorem C8_construct_config_type_dictionary_registry
    (builtins all_types : List CType)
    (hnd : (builtins.filterMap (fun t => t.given_name)).Nodup) :
    ((∃ msg, construct_config_type_dictionary builtins all_types =
        .error (.invalidDefinition msg)) ↔
      ((∃ t1 ∈ all_types, ∃ t2 ∈ all_types, ∃ n,
          t1.given_name = some n ∧ t2.given_name = some n ∧
          t1.variant ≠ t2.variant) ∨
       (∃ t ∈ all_types, ∃ b ∈ builtins, ∃ n,
          t.given_name = some n ∧ b.given_name = some n ∧
          t.variant ≠ b.variant))) ∧
    (∀ by_name by_key,
      construct_config_type_dictionary builtins all_types =
        .ok (by_name, by_key) →
      ∀ t ∈ all_types, (by_key.lookup t.key).isSome = true ∧
        ∀ n, t.given_name = some n → (by_name.lookup n).isSome = true) ∧
    (∀ by_name by_key,
      construct_config_type_dictionary builtins all_types =
        .ok (by_name, by_key) →
      ∀ k u, lastKeyed all_types k = some u →
        by_key.lookup k = some u) := by
  refine ⟨?_, ?_, ?_⟩
  · unfold construct_config_type_dictionary
    rw [configTypeLoop_error_iff all_types (seedByName builtins)
      (seedByKey builtins)]
    constructor
    · rintro ⟨t, ht, n, hn, r, hr, hv⟩
      unfold refAt at hr
      rw [seedByName_lookup builtins n hnd] at hr
      cases hb : firstNamed builtins n with
      | some b =>
        rw [hb] at hr
        injection hr with hr2
        subst hr2
        obtain ⟨hbmem, hbname⟩ := firstNamed_props builtins n b hb
        exact Or.inr ⟨t, ht, b, hbmem, n, hn, hbname, fun h => hv h.symm⟩
      | none =>
        rw [hb] at hr
        obtain ⟨hrmem, hrname⟩ := firstNamed_props all_types n r hr
        exact Or.inl ⟨r, hrmem, t, ht, n, hrname, hn, hv⟩
    · rintro (⟨t1, h1, t2, h2, n, hn1, hn2, hv⟩ |
        ⟨t, ht, b, hb, n, hn, hbn, hv⟩)
      · cases hs : (seedByName builtins).lookup n with
        | some b =>
          by_cases hb1 : b.variant = t1.variant
          · refine ⟨t2, h2, n, hn2, b, ?_, fun h => hv (hb1.symm.trans h)⟩
            unfold refAt
            rw [hs]
          · refine ⟨t1, h1, n, hn1, b, ?_, hb1⟩
            unfold refAt
            rw [hs]
        | none =>
          obtain ⟨f, hf⟩ := firstNamed_isSome all_types n t1 h1 hn1
          obtain ⟨hfmem, hfname⟩ := firstNamed_props all_types n f hf
          by_cases hf1 : f.variant = t1.variant
          · refine ⟨t2, h2, n, hn2, f, ?_, fun h => hv (hf1.symm.trans h)⟩
            unfold refAt
            rw [hs, hf]
          · refine ⟨t1, h1, n, hn1, f, ?_, hf1⟩
            unfold refAt
            rw [hs, hf]
      · have hfb : firstNamed builtins n = some b :=
          firstNamed_unique_of_nodup builtins n b hnd hb hbn
        have hs : (seedByName builtins).lookup n = some b := by
          rw [seedByName_lookup builtins n hnd, hfb]
        refine ⟨t, ht, n, hn, b, ?_, fun h => hv h.symm⟩
        unfold refAt
        rw [hs]
  · intro by_name by_key h t ht
    exact (configTypeLoop_mem all_types (seedByName builtins)
      (seedByKey builtins) (by_name, by_key) h).2.2 t ht
  · intro by_name by_key h k u hk
    have := configTypeLoop_key_lastwins all_types (seedByName builtins)
      (seedByKey builtins) (by_name, by_key) h k
    rw [hk] at this
    exact this

/-- C8 witness: one named builtin and one gathered type with a fresh name —
the run succeeds and both indexes contain the gathered type's entries. -/
theorem C8_construct_config_type_dictionary_registry_witness :
    (([("int_key", (⟨"int_key", some "Int", .scalarV⟩ : CType)),
        ("shape_key", ⟨"shape_key", some "CustomShape", .shapeV⟩)].lookup
        (⟨"shape_key", some "CustomShape",
          CTypeVariant.shapeV⟩ : CType).key).isSome = true) ∧
    (∀ n, (⟨"shape_key", some "CustomShape",
        CTypeVariant.shapeV⟩ : CType).given_name = some n →
      (([("Int", (⟨"int_key", some "Int", .scalarV⟩ : CType)),
        ("CustomShape",
          ⟨"shape_key", some "CustomShape", .shapeV⟩)].lookup n).isSome =
        true)) :=
  (C8_construct_config_type_dictionary_registry
    [⟨"int_key", some "Int", .scalarV⟩]
    [⟨"shape_key", some "CustomShape", .shapeV⟩] (by decide)).2.1
    [("Int", ⟨"int_key", some "Int", .scalarV⟩),
     ("CustomShape", ⟨"shape_key", some "CustomShape", .shapeV⟩)]
    [("int_key", ⟨"int_key", some "Int", .scalarV⟩),
     ("shape_key", ⟨"shape_key", some "CustomShape", .shapeV⟩)]
    rfl
    ⟨"shape_key", some "CustomShape", .shapeV⟩ (List.Mem.head _)

end Dagster
